import Mathlib

/-!
# Verification of the LMS course-completion / certificate pipeline

Shallow embedding of the services of this repository that carry correctness
constraints: the certificate service (`createCertificate`, `generateCertificate`,
`isEligibleForCertificate`), the lesson-progress service (`markLessonAsCompleted`,
`calculateCourseProgress`), the enrollment service (`enrollCourse`), the module
service (`getModulesByCourseId`), and the caching/throttling fetch wrapper around
the supabase client.

Conventions of the embedding:
* The backing database is a record of tables (lists of rows).  Supabase query
  builders are translated to list operations: `.eq` filters, `.order` sorts,
  `.single()` / `.maybeSingle()` succeed only on an appropriate number of rows.
* Timestamps (ISO date strings / `Date.now()`) are modelled as `Nat`.
* Fallible operations return `Except` paired with the post-state; injected
  boolean flags model the failure of individual database calls, so that the
  error-handling branches of the source are reachable in the model.
* JS falsiness of `null`/`undefined`/`''` on id fields is modelled by the empty
  string (for required `String` fields) or `Option` (for nullable fields).
-/

namespace LMS

/-- A row of the `certificates` table (interface `CertificateDB` in the source). -/
structure CertificateDB where
  id : String
  user_id : String
  course_id : String
  course_name : String
  user_name : String
  issue_date : Nat
  expiry_date : Option Nat
  certificate_url : Option String
  created_at : Nat
  updated_at : Nat
deriving DecidableEq, Repr

/-- The `Certificate` type returned by the certificate service. -/
structure Certificate where
  id : String
  userId : String
  courseId : String
  courseName : String
  userName : String
  issueDate : Nat
  expiryDate : Option Nat
  certificateUrl : Option String
deriving DecidableEq, Repr

/-- `mapToCertificate`: converts a database row to the `Certificate` type. -/
def mapToCertificate (cert : CertificateDB) : Certificate :=
  { id := cert.id
    userId := cert.user_id
    courseId := cert.course_id
    courseName := cert.course_name
    userName := cert.user_name
    issueDate := cert.issue_date
    expiryDate := cert.expiry_date
    certificateUrl := cert.certificate_url }

/-- A row of the `recent_certificates` table. -/
structure RecentCertRow where
  user_id : String
  course_id : String
  course_name : String
  user_name : Option String
  issue_date : Nat
deriving DecidableEq, Repr

/-- A row of the `enrollments` table (the columns the embedded services read). -/
structure EnrollRow where
  user_id : String
  course_id : String
  progress : Nat
  completed_at : Option Nat
  enrolled_at : Nat
deriving DecidableEq, Repr

/-- A row of the `modules` table. -/
structure ModuleRow where
  id : String
  course_id : String
  title : String
  description : String
  order_number : Nat
deriving DecidableEq, Repr

/-- A row of the `lessons` table. -/
structure LessonRow where
  id : String
  module_id : String
  title : String
  description : String
  duration : String
  video_url : String
  content : String
  order_number : Nat
deriving DecidableEq, Repr

/-- A row of the `lesson_progress` table. -/
structure LPRow where
  id : String
  user_id : String
  lesson_id : String
  completed : Bool
  completed_at : Option Nat
deriving DecidableEq, Repr

/-- A row of the `courses` table (the columns the certificate pipeline reads). -/
structure CourseRow where
  id : String
  title : String
deriving DecidableEq, Repr

/-- A row of the `profiles` table (the columns the certificate pipeline reads). -/
structure ProfileRow where
  id : String
  name : Option String
  full_name : Option String
  username : Option String
deriving DecidableEq, Repr

/-- The backing database: one list of rows per table. -/
structure DB where
  certificates : List CertificateDB
  recentCertificates : List RecentCertRow
  enrollments : List EnrollRow
  modules : List ModuleRow
  lessons : List LessonRow
  lessonProgress : List LPRow
  courses : List CourseRow
  profiles : List ProfileRow
deriving DecidableEq, Repr

/-- `.single()` / `.maybeSingle()` row extraction: `some` exactly when the
filtered result has exactly one row. -/
def exactlyOne : List α → Option α
  | [a] => some a
  | _ => none

/-- `Math.round((c / t) * 100)` for naturals (`t > 0`): round half up. -/
def jsRound100 (c t : Nat) : Nat := (200 * c + t) / (2 * t)

/-- Modelled from the spec: `requestThrottler` (`src/utils/requestThrottler.ts`)
is not under `src/`; per the spec it is a thin request-caching utility whose
`getCachedItem`/`cacheItem` form a key-value cache.  It is modelled as typed
key-value maps, one per kind of payload the certificate pipeline stores. -/
structure ThrottlerCache where
  certs : List (String × Certificate)
  elig : List (String × Bool)
  courseRows : List (String × CourseRow)
  profileRows : List (String × ProfileRow)
deriving DecidableEq, Repr

/-- `requestThrottler.getCachedItem` on one of the typed maps. -/
def cacheLookup (m : List (String × α)) (k : String) : Option α :=
  (m.find? (fun e => e.1 = k)).map (fun e => e.2)

/-- `requestThrottler.cacheItem` on one of the typed maps (replace or insert). -/
def cacheInsert (m : List (String × α)) (k : String) (v : α) : List (String × α) :=
  (k, v) :: m.filter (fun e => e.1 ≠ k)

/-- Cache key `certificate-userId-courseId` used by `generateCertificate`. -/
def certCacheKey (userId courseId : String) : String :=
  "certificate-" ++ userId ++ "-" ++ courseId

/-- Cache key `eligibility-userId-courseId` used by `generateCertificate`. -/
def eligCacheKey (userId courseId : String) : String :=
  "eligibility-" ++ userId ++ "-" ++ courseId

/-- Cache key `course-courseId` used by `generateCertificate`. -/
def courseCacheKey (courseId : String) : String := "course-" ++ courseId

/-- Cache key `user-userId` used by `generateCertificate`. -/
def userCacheKey (userId : String) : String := "user-" ++ userId

/-- The errors thrown by the certificate service. -/
inductive CertErr where
  /-- `'Dados incompletos para criar certificado'` -/
  | incompleteData
  /-- a PostgreSQL unique-constraint violation, `error.code === '23505'` -/
  | uniqueViolation
  /-- `'ID do curso e ID do usuário são obrigatórios'` -/
  | missingIds
  /-- `'Usuário não é elegível para receber certificado. ...'` -/
  | notEligible
  /-- `'Dados do curso ou usuário não encontrados'` -/
  | missingData
deriving DecidableEq, Repr

/-- Input of `createCertificate` (interface `CreateCertificateData`). -/
structure CreateCertificateData where
  userId : String
  courseId : String
  userName : String
  courseName : String
  issueDate : Option Nat
  expiryDate : Option Nat
  certificateUrl : Option String
deriving DecidableEq, Repr

/-- The certificate rows matching an optional user filter and an optional course
filter, ordered by `issue_date` descending — the query built by
`getCertificates`. -/
def certQuery (db : DB) (userId? courseId? : Option String) : List CertificateDB :=
  let q := db.certificates
  let q := match userId? with
    | some u => q.filter (fun r => r.user_id = u)
    | none => q
  let q := match courseId? with
    | some c => q.filter (fun r => r.course_id = c)
    | none => q
  List.insertionSort (fun a b => b.issue_date ≤ a.issue_date) q

/-- `getCertificates`: fetch certificates, optionally filtered by user and
course (on a query error the source catches and returns `[]`; the pure model
has no failing reads here — callers that need a failing certificate lookup
take an explicit flag). -/
def getCertificates (db : DB) (userId? courseId? : Option String) : List Certificate :=
  (certQuery db userId? courseId?).map mapToCertificate

/-- Whether some certificate row for `(userId, courseId)` exists — the unique
constraint on the `certificates` table is keyed on this pair. -/
def hasCertFor (db : DB) (userId courseId : String) : Bool :=
  db.certificates.any (fun r => r.user_id = userId && r.course_id = courseId)

/-- An insert into `certificates` through the table's unique constraint on
`(user_id, course_id)`: fails with code `23505` when a row for the pair is
already present. -/
def insertCertificate (db : DB) (row : CertificateDB) : Except CertErr DB :=
  if hasCertFor db row.user_id row.course_id then .error .uniqueViolation
  else .ok { db with certificates := row :: db.certificates }

/-- A concurrent insert by another client, interleaved between the existence
check and the insert of `createCertificate`; it goes through the same unique
constraint, so it succeeds only when no row for its pair exists yet. -/
def applyConcurrent (db : DB) (concurrent : Option CertificateDB) : DB :=
  match concurrent with
  | none => db
  | some c =>
    if hasCertFor db c.user_id c.course_id then db
    else { db with certificates := c :: db.certificates }

/-- The `upsert` into `recent_certificates` (conflict target modelled as the
`(user_id, course_id)` pair: replace or insert). -/
def upsertRecent (db : DB) (r : RecentCertRow) : DB :=
  let kept := db.recentCertificates.filter
    (fun x => ¬(x.user_id = r.user_id ∧ x.course_id = r.course_id))
  { db with recentCertificates := r :: kept }

/-- The insert step of `createCertificate` with its duplicate-key recovery: a
failure with code 23505 is answered by fetching and returning the
already-existing certificate of the pair. -/
def certInsertAttempt (d : CreateCertificateData) (db2 : DB) (row : CertificateDB) :
    Except CertErr Certificate × DB :=
  match insertCertificate db2 row with
  | .ok db3 => (.ok (mapToCertificate row), db3)
  | .error e =>
    if e = .uniqueViolation then
      match getCertificates db2 (some d.userId) (some d.courseId) with
      | c :: _ => (.ok c, db2)
      | [] => (.error e, db2)
    else (.error e, db2)

/-- The `recent_certificates` history row built by `createCertificate`. -/
def createCertRecentRow (d : CreateCertificateData) (now : Nat) : RecentCertRow :=
  { user_id := d.userId, course_id := d.courseId,
    course_name := d.courseName, user_name := some d.userName,
    issue_date := d.issueDate.getD now }

/-- The certificate row built by `createCertificate` for the insert. -/
def createCertRow (d : CreateCertificateData) (now : Nat) (newId : String) :
    CertificateDB :=
  let defaultUrl := "/certificates/" ++ d.userId ++ "-" ++ d.courseId ++ "-" ++ toString now
  { id := newId, user_id := d.userId, course_id := d.courseId,
    course_name := d.courseName, user_name := d.userName,
    issue_date := d.issueDate.getD now, expiry_date := d.expiryDate,
    certificate_url := some (d.certificateUrl.getD defaultUrl),
    created_at := now, updated_at := now }

/-- The fresh-creation path of `createCertificate` (taken when no certificate
for the pair was found): upsert the history row, suffer the interleaved
concurrent insert if any, then attempt the insert. -/
def createCertFresh (d : CreateCertificateData) (db : DB) (now : Nat)
    (newId : String) (concurrent : Option CertificateDB) :
    Except CertErr Certificate × DB :=
  let db1 := upsertRecent db (createCertRecentRow d now)
  let db2 := applyConcurrent db1 concurrent
  certInsertAttempt d db2 (createCertRow d now newId)

/-- `createCertificate`: validates the data, returns the existing certificate
of the `(user, course)` pair when there is one, otherwise upserts the
`recent_certificates` history row and inserts the certificate (see
`createCertFresh`).  `now` is `Date.now()`, `newId` the id generated by the
database for the new row.  Returns the result together with the database
post-state. -/
def createCertificate (d : CreateCertificateData) (db : DB) (now : Nat)
    (newId : String) (concurrent : Option CertificateDB) :
    Except CertErr Certificate × DB :=
  if d.userId = "" ∨ d.courseId = "" ∨ d.userName = "" ∨ d.courseName = "" then
    (.error .incompleteData, db)
  else
    match getCertificates db (some d.userId) (some d.courseId) with
    | c :: _ => (.ok c, db)
    | [] => createCertFresh d db now newId concurrent

/-- `isEligibleForCertificate`: empty ids are ineligible; an existing
certificate makes the pair eligible; otherwise the enrollment must have
`progress === 100` and a non-null `completed_at`.  `certsLookupFail` models a
failing certificate query (caught in `getCertificates`, which then returns
`[]`); `enrollLookupFail` models a failing enrollment query (the source logs
and returns `false`).  All error paths return `false` — the function never
throws. -/
def isEligibleForCertificate (db : DB) (userId courseId : String)
    (certsLookupFail enrollLookupFail : Bool) : Bool :=
  if userId = "" ∨ courseId = "" then false
  else
    let existingCerts :=
      if certsLookupFail then [] else getCertificates db (some userId) (some courseId)
    if existingCerts.length > 0 then true
    else if enrollLookupFail then false
    else
      match exactlyOne (db.enrollments.filter
          (fun e => e.user_id = userId && e.course_id = courseId)) with
      | none => false
      | some e => e.progress = 100 && e.completed_at ≠ none

/-- `.maybeSingle()` on `certificates` filtered by the `(user, course)` pair;
the source destructures only `data`, which is non-null exactly when one row
matches. -/
def maybeSingleCert (db : DB) (userId courseId : String) : Option CertificateDB :=
  exactlyOne (db.certificates.filter
    (fun r => r.user_id = userId && r.course_id = courseId))

/-- Step 2 of `generateCertificate`: eligibility, read through the throttler
cache (`isEligible === undefined` distinguishes a cached `false` from a cache
miss, so a miss computes and caches the value). -/
def cachedEligibility (db : DB) (cache : ThrottlerCache) (userId courseId : String)
    (certsLookupFail enrollLookupFail : Bool) : Bool × ThrottlerCache :=
  match cacheLookup cache.elig (eligCacheKey userId courseId) with
  | some b => (b, cache)
  | none =>
    let b := isEligibleForCertificate db userId courseId certsLookupFail enrollLookupFail
    (b, { cache with elig := cacheInsert cache.elig (eligCacheKey userId courseId) b })

/-- Step 3 of `generateCertificate`: course data, read through the throttler
cache; a miss queries the `courses` table by id (`.single()`), caching only a
successful result. -/
def cachedCourseData (db : DB) (cache : ThrottlerCache) (courseId : String) :
    Option CourseRow × ThrottlerCache :=
  match cacheLookup cache.courseRows (courseCacheKey courseId) with
  | some cd => (some cd, cache)
  | none =>
    match exactlyOne (db.courses.filter (fun r => r.id = courseId)) with
    | some cd =>
      let m := cacheInsert cache.courseRows (courseCacheKey courseId) cd
      (some cd, { cache with courseRows := m })
    | none => (none, cache)

/-- Step 3 of `generateCertificate`: profile data, read through the throttler
cache; a miss queries the `profiles` table by id (`.single()`), caching only a
successful result. -/
def cachedUserData (db : DB) (cache : ThrottlerCache) (userId : String) :
    Option ProfileRow × ThrottlerCache :=
  match cacheLookup cache.profileRows (userCacheKey userId) with
  | some ud => (some ud, cache)
  | none =>
    match exactlyOne (db.profiles.filter (fun r => r.id = userId)) with
    | some ud =>
      let m := cacheInsert cache.profileRows (userCacheKey userId) ud
      (some ud, { cache with profileRows := m })
    | none => (none, cache)

/-- `userData.full_name || userData.name || userData.username || 'Aluno'`. -/
def profileDisplayName (p : ProfileRow) : String :=
  ((p.full_name.orElse (fun _ => p.name)).orElse (fun _ => p.username)).getD "Aluno"

/-- Steps 4-5 of `generateCertificate`: build the certificate data and call
`createCertificate`, recovering from a duplicate-key race (a thrown error whose
message carries `duplicate`/`23505`) by fetching the existing certificate. -/
def generateCreateStep (courseId userId : String) (db : DB) (cache : ThrottlerCache)
    (now : Nat) (newId : String) (concurrent : Option CertificateDB)
    (courseData : CourseRow) (userData : ProfileRow) :
    Except CertErr Certificate × DB × ThrottlerCache :=
  let ck := certCacheKey userId courseId
  let d : CreateCertificateData :=
    { userId := userId, courseId := courseId,
      userName := profileDisplayName userData,
      courseName := courseData.title,
      issueDate := some now, expiryDate := none, certificateUrl := none }
  match createCertificate d db now newId concurrent with
  | (.ok newCert, db1) =>
    (.ok newCert, db1, { cache with certs := cacheInsert cache.certs ck newCert })
  | (.error e, db1) =>
    if e = .uniqueViolation then
      match maybeSingleCert db1 userId courseId with
      | some row =>
        let c := mapToCertificate row
        (.ok c, db1, { cache with certs := cacheInsert cache.certs ck c })
      | none => (.error e, db1, cache)
    else (.error e, db1, cache)

/-- `generateCertificate`: serves the certificate from the throttler cache when
present; otherwise returns the existing certificate of the pair if there is
one (caching it); otherwise checks eligibility (cached), fetches course and
profile data (cached), and creates the certificate, recovering from a
duplicate-key race by fetching the existing certificate.  Returns the result
with the database and cache post-states. -/
def generateCertificate (courseId userId : String) (db : DB)
    (cache : ThrottlerCache) (now : Nat) (newId : String)
    (concurrent : Option CertificateDB) (certsLookupFail enrollLookupFail : Bool) :
    Except CertErr Certificate × DB × ThrottlerCache :=
  if courseId = "" ∨ userId = "" then (.error .missingIds, db, cache)
  else
    let ck := certCacheKey userId courseId
    match cacheLookup cache.certs ck with
    | some c => (.ok c, db, cache)
    | none =>
      match maybeSingleCert db userId courseId with
      | some row =>
        let c := mapToCertificate row
        (.ok c, db, { cache with certs := cacheInsert cache.certs ck c })
      | none =>
        match cachedEligibility db cache userId courseId certsLookupFail enrollLookupFail with
        | (isEligible, cache1) =>
          if !isEligible then (.error .notEligible, db, cache1)
          else
            match cachedCourseData db cache1 courseId with
            | (courseData?, cache2) =>
              match cachedUserData db cache2 userId with
              | (userData?, cache3) =>
                match courseData?, userData? with
                | some courseData, some userData =>
                  generateCreateStep courseId userId db cache3 now newId concurrent
                    courseData userData
                | _, _ => (.error .missingData, db, cache3)

/-- The `LessonProgress` type returned by the lesson-progress service. -/
structure LessonProgress where
  id : String
  userId : String
  lessonId : String
  completed : Bool
  completedAt : Option Nat
deriving DecidableEq, Repr

/-- Converts a `lesson_progress` row to the `LessonProgress` type. -/
def toLessonProgress (p : LPRow) : LessonProgress :=
  { id := p.id, userId := p.user_id, lessonId := p.lesson_id,
    completed := p.completed, completedAt := p.completed_at }

/-- The modules of a course, as queried by the progress-recalculation block of
`markLessonAsCompleted` and by `calculateCourseProgress`. -/
def courseModules (db : DB) (courseId : String) : List ModuleRow :=
  db.modules.filter (fun m => m.course_id = courseId)

/-- The lessons of all modules of a course (`.in('module_id', moduleIds)`). -/
def courseLessons (db : DB) (courseId : String) : List LessonRow :=
  let moduleIds := (courseModules db courseId).map (fun m => m.id)
  db.lessons.filter (fun l => moduleIds.contains l.module_id)

/-- The completed `lesson_progress` rows of the user over the lessons of the
course (`.eq('user_id', ...).eq('completed', true).in('lesson_id', lessonIds)`). -/
def courseCompletedRows (db : DB) (userId courseId : String) : List LPRow :=
  let lessonIds := (courseLessons db courseId).map (fun l => l.id)
  db.lessonProgress.filter
    (fun p => p.user_id = userId && p.completed && lessonIds.contains p.lesson_id)

/-- The progress-recalculation block of `markLessonAsCompleted` (the inner
`try` after the lesson-progress row was written): recomputes the course
progress, writes it to the `enrollments` row, and when the course is now at
100% and the enrollment had no `completed_at`, records the completion date.
Any error inside this block is caught and the already-built `progressResult`
is returned, so the block is total and always returns `.ok res`. -/
def markLessonRecalc (userId courseId : String) (res : LessonProgress)
    (db1 : DB) (now : Nat) : Except String LessonProgress × DB :=
  let modules := courseModules db1 courseId
  if modules.isEmpty then (.ok res, db1)
  else
    let lessons := courseLessons db1 courseId
    if lessons.isEmpty then (.ok res, db1)
    else
      let totalLessons := lessons.length
      let completedCount := (courseCompletedRows db1 userId courseId).length
      let progress := if totalLessons > 0 then jsRound100 completedCount totalLessons else 0
      let db2 := { db1 with enrollments := db1.enrollments.map (fun e =>
        if e.user_id = userId && e.course_id = courseId then { e with progress := progress } else e) }
      if progress = 100 then
        match exactlyOne (db2.enrollments.filter
            (fun e => e.user_id = userId && e.course_id = courseId)) with
        | some e =>
          if e.completed_at = none then
            (.ok res, { db2 with enrollments := db2.enrollments.map (fun x =>
              if x.user_id = userId && x.course_id = courseId then { x with completed_at := some now } else x) })
          else (.ok res, db2)
        | none => (.ok res, db2)
      else (.ok res, db2)

/-- `markLessonAsCompleted`: resolves the lesson's module and course, updates
or inserts the `lesson_progress` row with `completed = true`, then recalculates
and stores the course progress (see `markLessonRecalc`).  Every failure is
rethrown by the outermost catch as `'Falha ao marcar aula como concluída'`,
which is the single error value of the model.  `now` is the ISO timestamp
taken at the start, `newId` the database-generated id of a fresh progress
row. -/
def markLessonAsCompleted (userId lessonId : String) (db : DB) (now : Nat)
    (newId : String) : Except String LessonProgress × DB :=
  let failMsg := "Falha ao marcar aula como concluída"
  match exactlyOne (db.lessons.filter (fun l => l.id = lessonId)) with
  | none => (.error failMsg, db)
  | some lessonData =>
    if lessonData.module_id = "" then (.error failMsg, db)
    else
      match exactlyOne (db.modules.filter (fun m => m.id = lessonData.module_id)) with
      | none => (.error failMsg, db)
      | some moduleData =>
        if moduleData.course_id = "" then (.error failMsg, db)
        else
          let courseId := moduleData.course_id
          let progressRows := db.lessonProgress.filter
            (fun p => p.user_id = userId && p.lesson_id = lessonId)
          if progressRows.length > 1 then (.error failMsg, db)
          else
            match progressRows with
            | existingProgress :: _ =>
              let db1 := { db with lessonProgress := db.lessonProgress.map (fun q =>
                if q.id = existingProgress.id then { q with completed := true, completed_at := some now } else q) }
              match exactlyOne (db1.lessonProgress.filter (fun q => q.id = existingProgress.id)) with
              | none => (.error failMsg, db1)
              | some row => markLessonRecalc userId courseId (toLessonProgress row) db1 now
            | [] =>
              let row : LPRow :=
                { id := newId, user_id := userId, lesson_id := lessonId,
                  completed := true, completed_at := some now }
              let db1 := { db with lessonProgress := row :: db.lessonProgress }
              markLessonRecalc userId courseId (toLessonProgress row) db1 now

/-- Failure flags for the database calls of `calculateCourseProgress`:
`modulesFail`, `lessonsFail`, `progressFail` fail the three list queries;
`enrollFail` is an enrollment-query error other than `PGRST116` (which the
source rethrows, to be caught by the outer handler); `certsLookupFail` fails
the certificate lookup inside the certificate-issuance step. -/
structure CalcFlags where
  modulesFail : Bool
  lessonsFail : Bool
  progressFail : Bool
  enrollFail : Bool
  certsLookupFail : Bool
deriving DecidableEq, Repr

/-- All failure flags off. -/
def CalcFlags.none : CalcFlags :=
  { modulesFail := false, lessonsFail := false, progressFail := false,
    enrollFail := false, certsLookupFail := false }

/-- The certificate-issuance step of `calculateCourseProgress` (inside its own
`try`/`catch`, so the course progress is returned whatever happens here): when
no certificate exists for the pair, generate one and upsert the
`recent_certificates` history row from freshly queried course and profile
data. -/
def calcCertStep (userId courseId : String) (db1 : DB) (cache : ThrottlerCache)
    (now : Nat) (newId : String) (certsLookupFail : Bool) : DB × ThrottlerCache :=
  let existingCertificates :=
    if certsLookupFail then [] else getCertificates db1 (some userId) (some courseId)
  if existingCertificates.isEmpty then
    match generateCertificate courseId userId db1 cache now newId none certsLookupFail false with
    | (.ok _, db2, cache2) =>
      let cd := exactlyOne (db2.courses.filter (fun r => r.id = courseId))
      let ud := exactlyOne (db2.profiles.filter (fun r => r.id = userId))
      match cd, ud with
      | some c, some u =>
        let r : RecentCertRow :=
          { user_id := userId, course_id := courseId,
            course_name := c.title, user_name := u.name, issue_date := now }
        (upsertRecent db2 r, cache2)
      | _, _ => (db2, cache2)
    | (.error _, db2, cache2) => (db2, cache2)
  else (db1, cache)

def calcUpdateEnrollments (userId courseId : String) (db : DB) (now : Nat)
    (progress : Nat) : DB :=
  let enrollment := exactlyOne (db.enrollments.filter
    (fun e => e.user_id = userId && e.course_id = courseId))
  let wasPreviouslyCompleted : Bool :=
    match enrollment with
    | none => true
    | some e => e.completed_at.isSome
  let isNowCompleted : Bool := progress == 100
  { db with enrollments := db.enrollments.map (fun e =>
      if e.user_id = userId && e.course_id = courseId then
        (if isNowCompleted && !wasPreviouslyCompleted then
          { e with progress := progress, completed_at := some now }
        else { e with progress := progress })
      else e) }

/-- `calculateCourseProgress`: computes the percentage of completed lessons of
the course for the user, stores it on the enrollment (recording `completed_at`
on a fresh completion, see `calcUpdateEnrollments`), triggers certificate
issuance at 100% (see `calcCertStep`), and returns the progress.  Every error
branch of the source returns `0` instead of throwing (the enrollment-query
error is rethrown internally but caught by the outermost handler, which
returns `0`). -/
def calculateCourseProgress (userId courseId : String) (db : DB)
    (cache : ThrottlerCache) (now : Nat) (newId : String) (flags : CalcFlags) :
    Nat × DB × ThrottlerCache :=
  if userId = "" ∨ courseId = "" then (0, db, cache)
  else if flags.modulesFail then (0, db, cache)
  else if (courseModules db courseId).isEmpty then (0, db, cache)
  else if flags.lessonsFail then (0, db, cache)
  else if (courseLessons db courseId).isEmpty then (0, db, cache)
  else if flags.progressFail then (0, db, cache)
  else
    let totalLessons := (courseLessons db courseId).length
    let completedCount := (courseCompletedRows db userId courseId).length
    let progress := if totalLessons > 0 then jsRound100 completedCount totalLessons else 0
    if flags.enrollFail then (0, db, cache)
    else
      let db1 := calcUpdateEnrollments userId courseId db now progress
      if progress == 100 then
        match calcCertStep userId courseId db1 cache now newId flags.certsLookupFail with
        | (db2, cache2) => (progress, db2, cache2)
      else (progress, db1, cache)

/-- The fresh enrollment row inserted by `enrollCourse`: progress 0, no
completion date. -/
def enrollRowOf (userId courseId : String) (now : Nat) : EnrollRow :=
  { user_id := userId, course_id := courseId,
    progress := 0, completed_at := none, enrolled_at := now }

/-- The result record of `enrollCourse`. -/
structure EnrollOutcome where
  success : Bool
  message : String
  enrollment : Option EnrollRow
deriving DecidableEq, Repr

/-- `enrollCourse`: checks for an existing enrollment of the `(user, course)`
pair (`.maybeSingle()`, which errors on more than one row), inserts a fresh
enrollment with progress `0` otherwise, and converts every error into the
result `{ success: false, message: 'Erro ao realizar matrícula.' }` instead of
throwing.  `checkFail` and `insertFail` model failures of the two database
calls. -/
def enrollCourse (courseId userId : String) (db : DB) (now : Nat)
    (checkFail insertFail : Bool) : EnrollOutcome × DB :=
  let errOutcome : EnrollOutcome :=
    { success := false, message := "Erro ao realizar matrícula.", enrollment := none }
  if checkFail then (errOutcome, db)
  else
    let enrollRows := db.enrollments.filter
      (fun e => e.user_id = userId && e.course_id = courseId)
    if enrollRows.length > 1 then (errOutcome, db)
    else
      match enrollRows with
      | _ :: _ =>
        ({ success := false, message := "Você já está matriculado neste curso.",
           enrollment := none }, db)
      | [] =>
        if insertFail then (errOutcome, db)
        else
          let row := enrollRowOf userId courseId now
          ({ success := true, message := "Matrícula realizada com sucesso!",
             enrollment := some row },
           { db with enrollments := row :: db.enrollments })

/-- The `Lesson` type returned by the module service. -/
structure Lesson where
  id : String
  moduleId : String
  title : String
  description : String
  duration : String
  videoUrl : String
  content : String
  order : Nat
  isCompleted : Bool
deriving DecidableEq, Repr

/-- The `Module` type returned by the module service. -/
structure Module where
  id : String
  title : String
  description : String
  order : Nat
  courseId : String
  lessons : List Lesson
deriving DecidableEq, Repr

/-- Maps a `lessons` row to the `Lesson` type (as `getModulesByCourseId` does). -/
def toLesson (l : LessonRow) : Lesson :=
  { id := l.id, moduleId := l.module_id, title := l.title,
    description := l.description, duration := l.duration,
    videoUrl := l.video_url, content := l.content,
    order := l.order_number, isCompleted := false }

/-- Maps a `modules` row plus its lessons to the `Module` type. -/
def toModule (m : ModuleRow) (lessons : List Lesson) : Module :=
  { id := m.id, title := m.title, description := m.description,
    order := m.order_number, courseId := m.course_id, lessons := lessons }

/-- The lessons of one module as queried by `getModulesByCourseId`
(`.eq('module_id', ...).order('order_number', ascending)`). -/
def moduleLessonsQuery (db : DB) (moduleId : String) : List LessonRow :=
  List.insertionSort (fun a b => a.order_number ≤ b.order_number)
    (db.lessons.filter (fun l => l.module_id = moduleId))

/-- One entry of the list built by `getModulesByCourseId`: a module whose
lessons query fails is kept with an empty lessons list, otherwise its lessons
are fetched and mapped. -/
def moduleEntry (db : DB) (lessonsFail : String → Bool) (m : ModuleRow) : Module :=
  if lessonsFail m.id then toModule m []
  else toModule m ((moduleLessonsQuery db m.id).map toLesson)

/-- `moduleService.getModulesByCourseId`: throws only on an empty `courseId`;
a failing modules query or an empty module list yields `[]`; a module whose
lessons query fails (`lessonsFail` its id) is kept with an empty lessons list;
the final list is sorted by `order` (the source's `.sort((a, b) => a.order -
b.order)`). -/
def getModulesByCourseId (courseId : String) (db : DB) (modulesFail : Bool)
    (lessonsFail : String → Bool) : Except String (List Module) :=
  if courseId = "" then .error "ID do curso é obrigatório"
  else if modulesFail then .ok []
  else
    let modules := List.insertionSort (fun a b => a.order_number ≤ b.order_number)
      (db.modules.filter (fun m => m.course_id = courseId))
    if modules.isEmpty then .ok []
    else
      let modulesWithLessons := modules.map (moduleEntry db lessonsFail)
      .ok (List.insertionSort (fun a b => a.order ≤ b.order) modulesWithLessons)

/-- A request, as seen by the wrapped fetch of the supabase client: the cache
key is `JSON.stringify({ url, method, body })`, which is modelled by this
triple itself (the serialization is injective on it). -/
structure Request where
  url : String
  method : String
  body : String
deriving DecidableEq, Repr

/-- A response body (JSON payload); `emptyArr` is the synthetic empty-data
body served for GET requests to a path in error cooldown. -/
inductive Payload where
  | raw (s : String)
  | emptyArr
deriving DecidableEq, Repr

/-- An entry of the response cache: `{ data, timestamp }`. -/
structure CacheEntry where
  data : Payload
  timestamp : Nat
deriving DecidableEq, Repr

/-- The module-level mutable state of the fetch wrapper: the response cache,
the error-cooldown set (each `errorPaths.add` schedules its removal
`ERROR_COOLDOWN` later, so an entry carries the firing time of its timer; the
path is a member while it was added and no timer for it has fired), and the
shared data the wrapper pushes into `requestThrottler.cacheItem(url, ...)`. -/
structure FetchState where
  responseCache : List (Request × CacheEntry)
  errorPaths : List (String × Nat)
  throttlerData : List (String × Payload)
deriving DecidableEq, Repr

/-- `CACHE_TTL = 1000 * 60 * 15` (15 minutes). -/
def CACHE_TTL : Nat := 1000 * 60 * 15

/-- `ERROR_COOLDOWN = 1000 * 10` (10 seconds). -/
def ERROR_COOLDOWN : Nat := 1000 * 10

/-- `url.split('?')[0]`: the URL without query params, used for error
tracking. -/
def urlPath (url : String) : String := String.mk (url.toList.takeWhile (fun c => c ≠ '?'))

/-- `responseCache.get(cacheKey)`. -/
def respLookup (m : List (Request × CacheEntry)) (k : Request) : Option CacheEntry :=
  (m.find? (fun e => e.1 = k)).map (fun e => e.2)

/-- `responseCache.set(cacheKey, entry)`. -/
def respInsert (m : List (Request × CacheEntry)) (k : Request) (v : CacheEntry) :
    List (Request × CacheEntry) :=
  (k, v) :: m.filter (fun e => e.1 ≠ k)

/-- `errorPaths.has(urlPath)` at time `now`: the path was added and none of
the scheduled `errorPaths.delete` timers for it has fired yet. -/
def inCooldown (st : FetchState) (path : String) (now : Nat) : Bool :=
  let es := st.errorPaths.filter (fun e => e.1 = path)
  !es.isEmpty && es.all (fun e => now < e.2)

/-- `errorPaths.add(urlPath)` plus its
`setTimeout(() => errorPaths.delete(urlPath), ERROR_COOLDOWN)`. -/
def addErrorPath (st : FetchState) (path : String) (now : Nat) : FetchState :=
  { st with errorPaths := (path, now + ERROR_COOLDOWN) :: st.errorPaths }

/-- What the network does for the one request under consideration. -/
inductive NetOutcome where
  /-- an HTTP success (`response.ok`); `parsed` is the JSON body when it
  parses, `none` when `.json()` rejects -/
  | ok (parsed : Option Payload)
  /-- HTTP 429; `retryAfter` is the `Retry-After` header, `msg` the `msg`
  field of the error body (`''` when absent) -/
  | rate429 (retryAfter : Option String) (msg : String)
  /-- a non-ok, non-429 HTTP response with its status and body text -/
  | httpErr (status : Nat) (errorText : String)
  /-- the 8-second abort timeout fired (`AbortError`) -/
  | timeout
  /-- `fetch` itself rejected -/
  | netFail (msg : String)
deriving DecidableEq, Repr

/-- What the wrapped fetch hands back to its caller. -/
inductive FetchResult where
  /-- a `Response` rebuilt from a response-cache entry -/
  | cached (p : Payload)
  /-- the synthetic `{ data: [] }` response for cooldown GETs -/
  | emptyData
  /-- the network `Response`, passed through -/
  | network
  /-- a thrown `Error` with its message -/
  | thrown (msg : String)
deriving DecidableEq, Repr

/-- Result, whether the network was consulted, and the post-state. -/
structure FetchOutcome where
  result : FetchResult
  usedNetwork : Bool
  state : FetchState
deriving DecidableEq, Repr

/-- Whether a non-ok response body triggers the certificate-specific error
message. -/
def isCertErrText (t : String) : Bool :=
  t.containsSubstr "certificate" || t.containsSubstr "certificado" ||
    t.containsSubstr "23505" || t.containsSubstr "duplicate"

/-- The outermost `catch` of the wrapped fetch: for GET requests any cached
response (no TTL check) is served instead of the error; otherwise the error
propagates. -/
def fetchOuterCatch (st : FetchState) (req : Request) (msg : String) : FetchOutcome :=
  if req.method = "GET" then
    match respLookup st.responseCache req with
    | some e => { result := .cached e.data, usedNetwork := true, state := st }
    | none => { result := .thrown msg, usedNetwork := true, state := st }
  else { result := .thrown msg, usedNetwork := true, state := st }

/-- The throttled network call of the wrapped fetch (the thunk passed to
`requestThrottler.enqueue`; modelled from the spec: the throttler runs it).
Successful GET responses with a parsable body are written to the response
cache and shared through the throttler; 429 and other HTTP errors put the
path into cooldown (twice: once where thrown, once in the inner catch) and
throw, subject to the cache fallbacks of the inner and outer catches. -/
def fetchNetwork (st : FetchState) (now : Nat) (req : Request) (net : NetOutcome) :
    FetchOutcome :=
  let path := urlPath req.url
  match net with
  | .ok parsed =>
    if req.method = "GET" then
      match parsed with
      | some p =>
        let st' : FetchState :=
          { st with responseCache := respInsert st.responseCache req { data := p, timestamp := now },
                    throttlerData := cacheInsert st.throttlerData req.url p }
        { result := .network, usedNetwork := true, state := st' }
      | none => { result := .network, usedNetwork := true, state := st }
    else { result := .network, usedNetwork := true, state := st }
  | .rate429 retryAfter msg =>
    let st1 := addErrorPath (addErrorPath st path now) path now
    let emsg := "Rate limit excedido. Tente novamente em " ++ retryAfter.getD "10" ++ "s. " ++ msg
    fetchOuterCatch st1 req emsg
  | .httpErr status errorText =>
    let st1 := addErrorPath (addErrorPath st path now) path now
    let emsg := if isCertErrText errorText then "Erro de certificado: " ++ errorText
      else "Erro HTTP: " ++ toString status
    fetchOuterCatch st1 req emsg
  | .timeout =>
    let st1 := addErrorPath st path now
    match respLookup st1.responseCache req with
    | some e => { result := .cached e.data, usedNetwork := true, state := st1 }
    | none => fetchOuterCatch st1 req "A conexão expirou."
  | .netFail msg =>
    let st1 := addErrorPath st path now
    fetchOuterCatch st1 req msg

/-- The wrapped `fetch` of the supabase client: a path in error cooldown is
answered from the response cache (any age) or, for GETs, with an empty-data
response; fresh cache entries (younger than `CACHE_TTL`) answer GETs; anything
else goes to the throttled network call. -/
def fetchModel (st : FetchState) (now : Nat) (req : Request) (net : NetOutcome) :
    FetchOutcome :=
  let path := urlPath req.url
  if inCooldown st path now then
    match respLookup st.responseCache req with
    | some e => { result := .cached e.data, usedNetwork := false, state := st }
    | none =>
      if req.method = "GET" then { result := .emptyData, usedNetwork := false, state := st }
      else fetchNetwork st now req net
  else if req.method = "GET" then
    match respLookup st.responseCache req with
    | some e =>
      if now - e.timestamp < CACHE_TTL then
        { result := .cached e.data, usedNetwork := false, state := st }
      else fetchNetwork st now req net
    | none => fetchNetwork st now req net
  else fetchNetwork st now req net

/-- Decidable equality for `Except`, needed to evaluate witnesses. -/
instance [DecidableEq ε] [DecidableEq α] : DecidableEq (Except ε α) := fun a b =>
  match a, b with
  | .ok x, .ok y =>
    match decEq x y with
    | isTrue h => isTrue (h ▸ rfl)
    | isFalse h => isFalse (fun hc => h (Except.ok.inj hc))
  | .error x, .error y =>
    match decEq x y with
    | isTrue h => isTrue (h ▸ rfl)
    | isFalse h => isFalse (fun hc => h (Except.error.inj hc))
  | .ok _, .error _ => isFalse (fun hc => Except.noConfusion hc)
  | .error _, .ok _ => isFalse (fun hc => Except.noConfusion hc)

/-! ## Concrete fixtures -/

/-- An empty throttler cache. -/
def emptyCache : ThrottlerCache := { certs := [], elig := [], courseRows := [], profileRows := [] }

/-- A certificate row already present for the pair `("u1", "c1")`. -/
def certA : CertificateDB :=
  { id := "certA", user_id := "u1", course_id := "c1", course_name := "Course 1",
    user_name := "User 1", issue_date := 10, expiry_date := none,
    certificate_url := none, created_at := 1, updated_at := 1 }

/-- A database already holding `certA`. -/
def dbWithCert : DB :=
  { certificates := [certA], recentCertificates := [], enrollments := [],
    modules := [], lessons := [], lessonProgress := [], courses := [], profiles := [] }

/-- Valid creation data for the pair `("u1", "c1")`. -/
def dataA : CreateCertificateData :=
  { userId := "u1", courseId := "c1", userName := "User 1", courseName := "Course 1",
    issueDate := none, expiryDate := none, certificateUrl := none }

/-- The completed enrollment of user `u1` in course `c1`. -/
def enrollDone : EnrollRow :=
  { user_id := "u1", course_id := "c1", progress := 100,
    completed_at := some 40, enrolled_at := 5 }

/-- A database where user `u1` has completed course `c1` and no certificate
exists yet (see `enrollDone`). -/
def dbElig : DB :=
  { certificates := [], recentCertificates := [],
    enrollments := [enrollDone],
    modules := [], lessons := [], lessonProgress := [],
    courses := [{ id := "c1", title := "Course 1" }],
    profiles := [{ id := "u1", name := some "Ana", full_name := none, username := none }] }

/-- The output of a first successful `generateCertificate` run on `dbElig`. -/
def genOut1 : Except CertErr Certificate × DB × ThrottlerCache :=
  generateCertificate "c1" "u1" dbElig emptyCache 50 "cert1" none false false

/-- The certificate issued by that run. -/
def genCert1 : Certificate :=
  { id := "cert1", userId := "u1", courseId := "c1", courseName := "Course 1",
    userName := "Ana", issueDate := 50, expiryDate := none,
    certificateUrl := some "/certificates/u1-c1-50" }

/-- The database after that run. -/
def genDb1 : DB := genOut1.2.1

/-- The throttler cache after that run. -/
def genCache1 : ThrottlerCache := genOut1.2.2

/-- An enrollment of `u1` in `c1` at 50% with no completion date. -/
def enrollHalf : EnrollRow :=
  { user_id := "u1", course_id := "c1", progress := 50,
    completed_at := none, enrolled_at := 5 }

/-- A database where user `u1` has not completed course `c1` and holds no
certificate. -/
def dbNotDone : DB :=
  { certificates := [], recentCertificates := [],
    enrollments := [enrollHalf],
    modules := [], lessons := [], lessonProgress := [],
    courses := [{ id := "c1", title := "Course 1" }],
    profiles := [{ id := "u1", name := some "Ana", full_name := none, username := none }] }

/-- Module `m1` of course `c1`. -/
def modM1 : ModuleRow :=
  { id := "m1", course_id := "c1", title := "Module 1",
    description := "", order_number := 1 }

/-- Lesson `l1` of module `m1`. -/
def lesL1 : LessonRow :=
  { id := "l1", module_id := "m1", title := "Lesson 1",
    description := "", duration := "", video_url := "", content := "", order_number := 1 }

/-- Lesson `l2` of module `m1`. -/
def lesL2 : LessonRow :=
  { id := "l2", module_id := "m1", title := "Lesson 2",
    description := "", duration := "", video_url := "", content := "", order_number := 2 }

/-- Completed progress row of `u1` on lesson `l1`. -/
def lpL1 : LPRow :=
  { id := "p1", user_id := "u1", lesson_id := "l1",
    completed := true, completed_at := some 7 }

/-- A course database where `u1` has completed one of the two lessons and the
enrollment stands at 50% with no completion date. -/
def dbCourse : DB :=
  { certificates := [], recentCertificates := [],
    enrollments := [enrollHalf],
    modules := [modM1], lessons := [lesL1, lesL2],
    lessonProgress := [lpL1],
    courses := [{ id := "c1", title := "Course 1" }],
    profiles := [{ id := "u1", name := some "Ana", full_name := none, username := none }] }

/-- Output of completing the remaining lesson `l2`. -/
def markOut : Except String LessonProgress × DB :=
  markLessonAsCompleted "u1" "l2" dbCourse 100 "p2"

/-- The progress record returned by that call. -/
def markRes : LessonProgress :=
  { id := "p2", userId := "u1", lessonId := "l2", completed := true, completedAt := some 100 }

/-- The database after that call. -/
def markDb : DB := markOut.2

/-- A GET request with a query string, for the fetch-wrapper fixtures. -/
def reqG : Request := { url := "https://x/api?sel=1", method := "GET", body := "" }

/-- A POST request on the same path. -/
def reqPost : Request := { url := "https://x/api?a=1", method := "POST", body := "b" }

/-- A cache entry written at time 0. -/
def entOld : CacheEntry := { data := .raw "d", timestamp := 0 }

/-- A fetch state whose path is in cooldown while the only cache entry is far
older than `CACHE_TTL`. -/
def stCoolStale : FetchState :=
  { responseCache := [(reqG, entOld)],
    errorPaths := [("https://x/api", 2000005)], throttlerData := [] }

/-- A fetch state with a stale cache entry and no cooldown. -/
def stStale : FetchState :=
  { responseCache := [(reqG, entOld)], errorPaths := [], throttlerData := [] }

/-- A fetch state with a fresh cache entry and no cooldown. -/
def stFresh : FetchState :=
  { responseCache := [(reqG, { data := .raw "d", timestamp := 90 })],
    errorPaths := [], throttlerData := [] }

/-- A fetch state in cooldown with an empty cache. -/
def stCoolEmpty : FetchState :=
  { responseCache := [], errorPaths := [("https://x/api", 500)], throttlerData := [] }

/-- An empty fetch state. -/
def stEmpty : FetchState := { responseCache := [], errorPaths := [], throttlerData := [] }

/-! ## Helper lemmas -/

/-- Number of certificate rows for a `(user, course)` pair in a list. -/
def certCountL (l : List CertificateDB) (u c : String) : Nat :=
  (l.filter (fun r => r.user_id = u && r.course_id = c)).length

/-- Number of certificate rows for a `(user, course)` pair in the database. -/
def certCount (db : DB) (u c : String) : Nat := certCountL db.certificates u c

/-- The at-most-one-certificate-per-pair invariant. -/
def atMostOneCert (db : DB) : Prop := ∀ u c, certCount db u c ≤ 1

theorem certCountL_cons (r : CertificateDB) (l : List CertificateDB) (u c : String) :
    certCountL (r :: l) u c =
      (if r.user_id = u ∧ r.course_id = c then 1 else 0) + certCountL l u c := by
  simp only [certCountL, List.filter_cons]
  by_cases h : r.user_id = u ∧ r.course_id = c
  · simp [h, Nat.add_comm]
  · simp only [h, if_false]
    have hb : (r.user_id = u && r.course_id = c) = false := by
      by_cases h1 : r.user_id = u
      · by_cases h2 : r.course_id = c
        · exact absurd ⟨h1, h2⟩ h
        · simp [h2]
      · simp [h1]
    simp [hb]

theorem hasCertFor_eq_false_iff (db : DB) (u c : String) :
    hasCertFor db u c = false ↔ certCountL db.certificates u c = 0 := by
  simp only [hasCertFor, certCountL]
  rw [← Bool.not_eq_true, List.any_eq_true]
  rw [List.length_eq_zero, List.filter_eq_nil_iff]
  constructor
  · intro h a ha; exact fun hb => h ⟨a, ha, hb⟩
  · rintro h ⟨a, ha, hb⟩; exact h a ha hb

theorem certCountL_le_one_cons (l : List CertificateDB) (r : CertificateDB)
    (h : ∀ u c, certCountL l u c ≤ 1)
    (h0 : certCountL l r.user_id r.course_id = 0) :
    ∀ u c, certCountL (r :: l) u c ≤ 1 := by
  intro u c
  rw [certCountL_cons]
  by_cases hp : r.user_id = u ∧ r.course_id = c
  · rw [if_pos hp]
    rcases hp with ⟨h1, h2⟩
    rw [← h1, ← h2, h0]
  · rw [if_neg hp, Nat.zero_add]
    exact h u c

theorem certQuery_pair (db : DB) (u c : String) :
    certQuery db (some u) (some c) =
      List.insertionSort (fun a b => b.issue_date ≤ a.issue_date)
        (db.certificates.filter (fun r => r.user_id = u && r.course_id = c)) := by
  simp only [certQuery]
  rw [List.filter_filter]
  congr 1
  exact List.filter_congr (fun a _ => Bool.and_comm _ _)

theorem certQuery_pair_nil (db : DB) (u c : String)
    (h : hasCertFor db u c = false) : certQuery db (some u) (some c) = [] := by
  rw [certQuery_pair]
  have h0 : db.certificates.filter (fun r => r.user_id = u && r.course_id = c) = [] :=
    List.length_eq_zero.1 ((hasCertFor_eq_false_iff db u c).1 h)
  rw [h0]
  rfl

theorem getCertificates_pair_nil (db : DB) (u c : String)
    (h : hasCertFor db u c = false) : getCertificates db (some u) (some c) = [] := by
  unfold getCertificates
  rw [certQuery_pair_nil db u c h]
  rfl

theorem hasCertFor_eq_true_iff (db : DB) (u c : String) :
    hasCertFor db u c = true ↔ 0 < certCountL db.certificates u c := by
  rcases hb : hasCertFor db u c with _ | _
  · simp only [Bool.false_eq_true, false_iff]
    have := (hasCertFor_eq_false_iff db u c).1 hb
    simp [this]
  · simp only [true_iff]
    rcases Nat.eq_zero_or_pos (certCountL db.certificates u c) with h0 | h0
    · have := (hasCertFor_eq_false_iff db u c).2 h0
      rw [this] at hb
      exact absurd hb (by simp)
    · exact h0

theorem getCertificates_pair_cons (db : DB) (u c : String)
    (h : hasCertFor db u c = true) :
    ∃ c0 rest, getCertificates db (some u) (some c) = c0 :: rest := by
  have hpos := (hasCertFor_eq_true_iff db u c).1 h
  have hlen : 0 < (certQuery db (some u) (some c)).length := by
    rw [certQuery_pair]
    rw [(List.perm_insertionSort _ _).length_eq]
    exact hpos
  rcases hq : certQuery db (some u) (some c) with _ | ⟨q0, qrest⟩
  · rw [hq] at hlen; simp at hlen
  · exact ⟨mapToCertificate q0, qrest.map mapToCertificate, by
      unfold getCertificates; rw [hq]; rfl⟩

theorem upsertRecent_certs (db : DB) (r : RecentCertRow) :
    (upsertRecent db r).certificates = db.certificates := rfl

theorem hasCertFor_congr {db1 db2 : DB} (h : db1.certificates = db2.certificates)
    (u c : String) : hasCertFor db1 u c = hasCertFor db2 u c := by
  unfold hasCertFor
  rw [h]

theorem createCertificate_existing (d : CreateCertificateData) (db : DB)
    (now : Nat) (newId : String) (conc : Option CertificateDB)
    (h1 : d.userId ≠ "") (h2 : d.courseId ≠ "") (h3 : d.userName ≠ "")
    (h4 : d.courseName ≠ "") (h : hasCertFor db d.userId d.courseId = true) :
    ∃ c0 rest, getCertificates db (some d.userId) (some d.courseId) = c0 :: rest ∧
      createCertificate d db now newId conc = (.ok c0, db) := by
  obtain ⟨c0, rest, hg⟩ := getCertificates_pair_cons db d.userId d.courseId h
  refine ⟨c0, rest, hg, ?_⟩
  simp only [createCertificate]
  rw [if_neg (not_or.2 ⟨h1, not_or.2 ⟨h2, not_or.2 ⟨h3, h4⟩⟩⟩)]
  rw [hg]

theorem applyConcurrent_some (db : DB) (cc : CertificateDB)
    (h : hasCertFor db cc.user_id cc.course_id = false) :
    applyConcurrent db (some cc) = { db with certificates := cc :: db.certificates } := by
  simp [applyConcurrent, h]

theorem createCertificate_concurrent (d : CreateCertificateData) (db : DB)
    (now : Nat) (newId : String) (cc : CertificateDB)
    (h1 : d.userId ≠ "") (h2 : d.courseId ≠ "") (h3 : d.userName ≠ "")
    (h4 : d.courseName ≠ "") (h : hasCertFor db d.userId d.courseId = false)
    (hu : cc.user_id = d.userId) (hc : cc.course_id = d.courseId) :
    ∃ db', createCertificate d db now newId (some cc) = (.ok (mapToCertificate cc), db') ∧
      db'.certificates = cc :: db.certificates ∧
      certCountL db'.certificates d.userId d.courseId = 1 := by
  have hnil := getCertificates_pair_nil db d.userId d.courseId h
  have hcount0 := (hasCertFor_eq_false_iff db d.userId d.courseId).1 h
  have hfil : db.certificates.filter
      (fun r => r.user_id = d.userId && r.course_id = d.courseId) = [] :=
    List.length_eq_zero.1 hcount0
  have hdb1certs : (upsertRecent db (createCertRecentRow d now)).certificates =
      db.certificates := upsertRecent_certs db _
  have hcc1 : hasCertFor (upsertRecent db (createCertRecentRow d now))
      cc.user_id cc.course_id = false := by
    rw [hasCertFor_congr hdb1certs, hu, hc]
    exact h
  set db1 := upsertRecent db (createCertRecentRow d now) with hdb1
  set db2 : DB := { db1 with certificates := cc :: db1.certificates } with hdb2def
  have hdb2certs : db2.certificates = cc :: db.certificates := by
    rw [hdb2def]
    rw [hdb1certs]
  have hcount2 : certCountL db2.certificates d.userId d.courseId = 1 := by
    rw [hdb2certs, certCountL_cons, if_pos ⟨hu, hc⟩]
    rw [certCountL, hfil]
    rfl
  refine ⟨db2, ?_, hdb2certs, hcount2⟩
  have hconflict : hasCertFor db2 (createCertRow d now newId).user_id
      (createCertRow d now newId).course_id = true := by
    have : hasCertFor db2 d.userId d.courseId = true := by
      rw [(hasCertFor_eq_true_iff db2 d.userId d.courseId), hcount2]
      exact Nat.one_pos
    exact this
  have hexist2 : hasCertFor db2 d.userId d.courseId = true := by
    rw [(hasCertFor_eq_true_iff db2 d.userId d.courseId), hcount2]
    exact Nat.one_pos
  have hq2 : certQuery db2 (some d.userId) (some d.courseId) = [cc] := by
    rw [certQuery_pair, hdb2certs, List.filter_cons_of_pos, hfil]
    · rfl
    · simp [hu, hc]
  have hg2 : getCertificates db2 (some d.userId) (some d.courseId) =
      [mapToCertificate cc] := by
    unfold getCertificates
    rw [hq2]
    rfl
  have hattempt : certInsertAttempt d db2 (createCertRow d now newId) =
      (.ok (mapToCertificate cc), db2) := by
    unfold certInsertAttempt
    rw [show insertCertificate db2 (createCertRow d now newId) =
        .error .uniqueViolation by simp [insertCertificate, hconflict]]
    rw [hg2]
    rfl
  have hfresh : createCertFresh d db now newId (some cc) =
      (.ok (mapToCertificate cc), db2) := by
    show certInsertAttempt d (applyConcurrent db1 (some cc)) (createCertRow d now newId) =
      (.ok (mapToCertificate cc), db2)
    rw [applyConcurrent_some db1 cc hcc1]
    exact hattempt
  simp only [createCertificate]
  rw [if_neg (not_or.2 ⟨h1, not_or.2 ⟨h2, not_or.2 ⟨h3, h4⟩⟩⟩)]
  rw [hnil]
  exact hfresh

theorem atMostOneCert_of_certs_eq {dba dbb : DB}
    (hc : dba.certificates = dbb.certificates) (h : atMostOneCert dbb) :
    atMostOneCert dba := by
  intro u c
  unfold certCount
  rw [hc]
  exact h u c

theorem atMostOneCert_cons {db2 : DB} (row : CertificateDB) (h : atMostOneCert db2)
    (h0 : hasCertFor db2 row.user_id row.course_id = false) :
    atMostOneCert { db2 with certificates := row :: db2.certificates } := by
  intro u c
  exact certCountL_le_one_cons db2.certificates row (fun u c => h u c)
    ((hasCertFor_eq_false_iff db2 row.user_id row.course_id).1 h0) u c

theorem applyConcurrent_preserves (dbx : DB) (conc : Option CertificateDB)
    (h : atMostOneCert dbx) : atMostOneCert (applyConcurrent dbx conc) := by
  cases conc with
  | none => exact h
  | some cc =>
    simp only [applyConcurrent]
    rcases hb : hasCertFor dbx cc.user_id cc.course_id with _ | _
    · rw [if_neg Bool.false_ne_true]
      exact atMostOneCert_cons cc h hb
    · rw [if_pos rfl]
      exact h

theorem certInsertAttempt_preserves (d : CreateCertificateData) (db2 : DB)
    (row : CertificateDB) (h : atMostOneCert db2) :
    atMostOneCert (certInsertAttempt d db2 row).2 := by
  unfold certInsertAttempt
  rcases hb : hasCertFor db2 row.user_id row.course_id with _ | _
  · rw [show insertCertificate db2 row =
        .ok { db2 with certificates := row :: db2.certificates } by
      simp [insertCertificate, hb]]
    exact atMostOneCert_cons row h hb
  · rw [show insertCertificate db2 row = .error .uniqueViolation by
      simp [insertCertificate, hb]]
    rcases hg : getCertificates db2 (some d.userId) (some d.courseId) with _ | ⟨c0, rest⟩ <;>
      simp only [hg] <;> exact h

theorem createCertFresh_preserves (d : CreateCertificateData) (db : DB)
    (now : Nat) (newId : String) (conc : Option CertificateDB)
    (h : atMostOneCert db) :
    atMostOneCert (createCertFresh d db now newId conc).2 := by
  have h1 : atMostOneCert (upsertRecent db (createCertRecentRow d now)) :=
    atMostOneCert_of_certs_eq (upsertRecent_certs db _) h
  have h2 : atMostOneCert
      (applyConcurrent (upsertRecent db (createCertRecentRow d now)) conc) :=
    applyConcurrent_preserves _ conc h1
  exact certInsertAttempt_preserves d _ _ h2

theorem createCertificate_preserves (d : CreateCertificateData) (db : DB)
    (now : Nat) (newId : String) (conc : Option CertificateDB)
    (h : atMostOneCert db) :
    atMostOneCert (createCertificate d db now newId conc).2 := by
  unfold createCertificate
  split
  · exact h
  · rcases hg : getCertificates db (some d.userId) (some d.courseId) with _ | ⟨c0, rest⟩
    · exact createCertFresh_preserves d db now newId conc h
    · exact h

theorem generateCertificate_existing (courseId userId : String) (db : DB)
    (cache : ThrottlerCache) (now : Nat) (newId : String)
    (conc : Option CertificateDB) (cf ef : Bool)
    (hcu : courseId ≠ "") (hus : userId ≠ "")
    (hmiss : cacheLookup cache.certs (certCacheKey userId courseId) = none)
    (row : CertificateDB) (hrow : maybeSingleCert db userId courseId = some row) :
    generateCertificate courseId userId db cache now newId conc cf ef =
      (.ok (mapToCertificate row), db,
        { cache with certs := cacheInsert cache.certs (certCacheKey userId courseId) (mapToCertificate row) }) := by
  simp only [generateCertificate]
  rw [if_neg (not_or.2 ⟨hcu, hus⟩)]
  rw [hmiss, hrow]

theorem generateCreateStep_preserves (courseId userId : String) (db : DB)
    (cache : ThrottlerCache) (now : Nat) (newId : String)
    (conc : Option CertificateDB) (courseData : CourseRow) (userData : ProfileRow)
    (h : atMostOneCert db) :
    atMostOneCert
      (generateCreateStep courseId userId db cache now newId conc courseData userData).2.1 := by
  have hall := createCertificate_preserves
    { userId := userId, courseId := courseId,
      userName := profileDisplayName userData, courseName := courseData.title,
      issueDate := some now, expiryDate := none, certificateUrl := none }
    db now newId conc h
  simp only [generateCreateStep]
  split
  next newCert db1 heq =>
    rw [heq] at hall
    exact hall
  next e db1 heq =>
    rw [heq] at hall
    by_cases he : e = .uniqueViolation
    · rw [if_pos he]
      rcases hm : maybeSingleCert db1 userId courseId with _ | ⟨row⟩ <;> simp only [hm] <;>
        exact hall
    · rw [if_neg he]
      exact hall

theorem generateCertificate_preserves (courseId userId : String) (db : DB)
    (cache : ThrottlerCache) (now : Nat) (newId : String)
    (conc : Option CertificateDB) (cf ef : Bool) (h : atMostOneCert db) :
    atMostOneCert (generateCertificate courseId userId db cache now newId conc cf ef).2.1 := by
  simp only [generateCertificate]
  split
  · exact h
  · rcases hl : cacheLookup cache.certs (certCacheKey userId courseId) with _ | ⟨c⟩ <;>
      simp only [hl]
    · rcases hm : maybeSingleCert db userId courseId with _ | ⟨row⟩ <;> simp only [hm]
      · rcases he : cachedEligibility db cache userId courseId cf ef with ⟨isEligible, cache1⟩
        simp only [he]
        cases isEligible with
        | false => exact h
        | true =>
          simp only [Bool.not_true, Bool.false_eq_true, if_false]
          rcases hcd : cachedCourseData db cache1 courseId with ⟨courseData?, cache2⟩
          simp only [hcd]
          rcases hud : cachedUserData db cache2 userId with ⟨userData?, cache3⟩
          simp only [hud]
          rcases courseData? with _ | ⟨courseData⟩ <;> rcases userData? with _ | ⟨userData⟩
          · exact h
          · exact h
          · exact h
          · exact generateCreateStep_preserves courseId userId db cache3 now newId conc
              courseData userData h
      · exact h
    · exact h

theorem cacheLookup_insert_self (m : List (String × α)) (k : String) (v : α) :
    cacheLookup (cacheInsert m k v) k = some v := by
  simp [cacheLookup, cacheInsert]

theorem getCertificates_cons_pair (db2 : DB) (row : CertificateDB) (u c : String)
    (hu : row.user_id = u) (hc : row.course_id = c)
    (h0 : hasCertFor db2 u c = false) :
    getCertificates { db2 with certificates := row :: db2.certificates }
      (some u) (some c) = [mapToCertificate row] := by
  have hfil : db2.certificates.filter (fun r => r.user_id = u && r.course_id = c) = [] :=
    List.length_eq_zero.1 ((hasCertFor_eq_false_iff db2 u c).1 h0)
  unfold getCertificates
  rw [certQuery_pair]
  show (List.insertionSort _ ((row :: db2.certificates).filter _)).map mapToCertificate = _
  rw [List.filter_cons_of_pos (by simp [hu, hc]), hfil]
  rfl

theorem certInsertAttempt_ok_query (d : CreateCertificateData) (db2 : DB)
    (row : CertificateDB) (cert : Certificate) (db1 : DB)
    (hu : row.user_id = d.userId) (hc : row.course_id = d.courseId)
    (h : certInsertAttempt d db2 row = (.ok cert, db1)) :
    ∃ rest, getCertificates db1 (some d.userId) (some d.courseId) = cert :: rest := by
  unfold certInsertAttempt at h
  rcases hb : hasCertFor db2 row.user_id row.course_id with _ | _
  · rw [show insertCertificate db2 row =
        .ok { db2 with certificates := row :: db2.certificates } by
      simp [insertCertificate, hb]] at h
    simp only [Prod.mk.injEq, Except.ok.injEq] at h
    obtain ⟨hcert, hdb⟩ := h
    refine ⟨[], ?_⟩
    rw [← hdb, ← hcert]
    exact getCertificates_cons_pair db2 row d.userId d.courseId hu hc (hu ▸ hc ▸ hb)
  · rw [show insertCertificate db2 row = .error .uniqueViolation by
      simp [insertCertificate, hb]] at h
    rcases hg : getCertificates db2 (some d.userId) (some d.courseId) with _ | ⟨c0, rest0⟩
    · rw [hg] at h
      simp at h
    · rw [hg] at h
      have h2 : db2 = db1 := congrArg Prod.snd h
      have h1 : (Except.ok c0 : Except CertErr Certificate) = Except.ok cert :=
        congrArg Prod.fst h
      have hcert : c0 = cert := Except.ok.inj h1
      rw [← h2, ← hcert]
      exact ⟨rest0, hg⟩

theorem createCertificate_ok_query (d : CreateCertificateData) (db : DB)
    (now : Nat) (newId : String) (conc : Option CertificateDB)
    (cert : Certificate) (db1 : DB)
    (h : createCertificate d db now newId conc = (.ok cert, db1)) :
    ¬(d.userId = "" ∨ d.courseId = "" ∨ d.userName = "" ∨ d.courseName = "") ∧
      ∃ rest, getCertificates db1 (some d.userId) (some d.courseId) = cert :: rest := by
  by_cases hid : d.userId = "" ∨ d.courseId = "" ∨ d.userName = "" ∨ d.courseName = ""
  · rw [show createCertificate d db now newId conc = (.error .incompleteData, db) by
      simp [createCertificate, hid]] at h
    simp at h
  · refine ⟨hid, ?_⟩
    simp only [createCertificate] at h
    rw [if_neg hid] at h
    rcases hg : getCertificates db (some d.userId) (some d.courseId) with _ | ⟨c0, r0⟩
    · rw [hg] at h
      simp only [createCertFresh] at h
      exact certInsertAttempt_ok_query d _ _ cert db1 rfl rfl h
    · rw [hg] at h
      simp only [Prod.mk.injEq, Except.ok.injEq] at h
      obtain ⟨hcert, hdb⟩ := h
      refine ⟨r0, ?_⟩
      rw [← hdb, ← hcert]
      exact hg

theorem createCertificate_idempotent (d : CreateCertificateData) (db : DB)
    (now : Nat) (newId : String) (conc : Option CertificateDB)
    (cert : Certificate) (db1 : DB)
    (h : createCertificate d db now newId conc = (.ok cert, db1))
    (now2 : Nat) (newId2 : String) (conc2 : Option CertificateDB) :
    createCertificate d db1 now2 newId2 conc2 = (.ok cert, db1) := by
  obtain ⟨hid, rest, hq⟩ := createCertificate_ok_query d db now newId conc cert db1 h
  simp only [createCertificate]
  rw [if_neg hid, hq]

theorem triple_ok_parts {r : Except CertErr Certificate} {dbx dby : DB}
    {cx cy : ThrottlerCache} {cert : Certificate}
    (h : (r, dbx, cx) = (.ok cert, dby, cy)) :
    r = .ok cert ∧ dbx = dby ∧ cx = cy :=
  ⟨congrArg Prod.fst h, congrArg (fun t => t.2.1) h, congrArg (fun t => t.2.2) h⟩

theorem generateCreateStep_ok_caches (courseId userId : String) (db : DB)
    (cache : ThrottlerCache) (now : Nat) (newId : String)
    (conc : Option CertificateDB) (courseData : CourseRow) (userData : ProfileRow)
    (cert : Certificate) (db1 : DB) (cache1 : ThrottlerCache)
    (h : generateCreateStep courseId userId db cache now newId conc courseData userData =
      (.ok cert, db1, cache1)) :
    cacheLookup cache1.certs (certCacheKey userId courseId) = some cert := by
  simp only [generateCreateStep] at h
  split at h
  next newCert dbx heq =>
    obtain ⟨hr, hdb, hcache⟩ := triple_ok_parts h
    have hnc : newCert = cert := Except.ok.inj hr
    rw [← hcache, ← hnc]
    exact cacheLookup_insert_self cache.certs _ newCert
  next e dbx heq =>
    by_cases he : e = CertErr.uniqueViolation
    · rw [if_pos he] at h
      rcases hm : maybeSingleCert dbx userId courseId with _ | ⟨row⟩ <;> simp only [hm] at h
      · exact absurd (triple_ok_parts h).1 (by simp)
      · obtain ⟨hr, hdb, hcache⟩ := triple_ok_parts h
        have hnc : mapToCertificate row = cert := Except.ok.inj hr
        rw [← hcache, ← hnc]
        exact cacheLookup_insert_self cache.certs _ _
    · rw [if_neg he] at h
      exact absurd (triple_ok_parts h).1 (by simp)

theorem generateCertificate_ok_state (courseId userId : String) (db : DB)
    (cache : ThrottlerCache) (now : Nat) (newId : String)
    (conc : Option CertificateDB) (cf ef : Bool)
    (cert : Certificate) (db1 : DB) (cache1 : ThrottlerCache)
    (h : generateCertificate courseId userId db cache now newId conc cf ef =
      (.ok cert, db1, cache1)) :
    courseId ≠ "" ∧ userId ≠ "" ∧
      cacheLookup cache1.certs (certCacheKey userId courseId) = some cert := by
  by_cases hid : courseId = "" ∨ userId = ""
  · rw [show generateCertificate courseId userId db cache now newId conc cf ef =
        (.error .missingIds, db, cache) by simp [generateCertificate, hid]] at h
    exact absurd (triple_ok_parts h).1 (by simp)
  · obtain ⟨h1, h2⟩ := not_or.1 hid
    refine ⟨h1, h2, ?_⟩
    simp only [generateCertificate] at h
    rw [if_neg hid] at h
    rcases hl : cacheLookup cache.certs (certCacheKey userId courseId) with _ | ⟨c⟩ <;>
      simp only [hl] at h
    · rcases hm : maybeSingleCert db userId courseId with _ | ⟨row⟩ <;> simp only [hm] at h
      · rcases he : cachedEligibility db cache userId courseId cf ef with ⟨isE, cacheE⟩
        simp only [he] at h
        cases isE with
        | false => exact absurd (triple_ok_parts h).1 (by simp)
        | true =>
          simp only [Bool.not_true, Bool.false_eq_true, if_false] at h
          rcases hcd : cachedCourseData db cacheE courseId with ⟨courseData?, cache2⟩
          simp only [hcd] at h
          rcases hud : cachedUserData db cache2 userId with ⟨userData?, cache3⟩
          simp only [hud] at h
          rcases courseData? with _ | ⟨courseData⟩ <;> rcases userData? with _ | ⟨userData⟩
          · exact absurd (triple_ok_parts h).1 (by simp)
          · exact absurd (triple_ok_parts h).1 (by simp)
          · exact absurd (triple_ok_parts h).1 (by simp)
          · exact generateCreateStep_ok_caches courseId userId db cache3 now newId conc
              courseData userData cert db1 cache1 h
      · obtain ⟨hr, hdb, hcache⟩ := triple_ok_parts h
        have hnc : mapToCertificate row = cert := Except.ok.inj hr
        rw [← hcache, ← hnc]
        exact cacheLookup_insert_self cache.certs _ _
    · obtain ⟨hr, hdb, hcache⟩ := triple_ok_parts h
      have hnc : c = cert := Except.ok.inj hr
      rw [← hcache, ← hnc]
      exact hl

theorem generateCertificate_idempotent (courseId userId : String) (db : DB)
    (cache : ThrottlerCache) (now : Nat) (newId : String)
    (conc : Option CertificateDB) (cf ef : Bool)
    (cert : Certificate) (db1 : DB) (cache1 : ThrottlerCache)
    (h : generateCertificate courseId userId db cache now newId conc cf ef =
      (.ok cert, db1, cache1))
    (now2 : Nat) (newId2 : String) (conc2 : Option CertificateDB) (cf2 ef2 : Bool) :
    generateCertificate courseId userId db1 cache1 now2 newId2 conc2 cf2 ef2 =
      (.ok cert, db1, cache1) := by
  obtain ⟨h1, h2, hcl⟩ :=
    generateCertificate_ok_state courseId userId db cache now newId conc cf ef cert db1 cache1 h
  simp only [generateCertificate]
  rw [if_neg (not_or.2 ⟨h1, h2⟩), hcl]

theorem getCertificates_pair_length (db : DB) (u c : String) :
    (getCertificates db (some u) (some c)).length = certCountL db.certificates u c := by
  unfold getCertificates
  rw [certQuery_pair, List.length_map, (List.perm_insertionSort _ _).length_eq]
  rfl

theorem isEligible_eq_general (db : DB) (u c : String) (cf ef : Bool)
    (hid : ¬(u = "" ∨ c = "")) :
    isEligibleForCertificate db u c cf ef =
      (if (if cf then ([] : List Certificate) else getCertificates db (some u) (some c)).length > 0
        then true
        else if ef then false
        else match exactlyOne (db.enrollments.filter
            (fun e => e.user_id = u && e.course_id = c)) with
          | none => false
          | some e => decide (e.progress = 100) && decide (e.completed_at ≠ none)) := by
  unfold isEligibleForCertificate
  rw [if_neg hid]

theorem isEligible_characterization (db : DB) (userId courseId : String) :
    isEligibleForCertificate db userId courseId false false = true ↔
      (userId ≠ "" ∧ courseId ≠ "" ∧
        (hasCertFor db userId courseId = true ∨
          ∃ e, exactlyOne (db.enrollments.filter
              (fun x => x.user_id = userId && x.course_id = courseId)) = some e ∧
            e.progress = 100 ∧ e.completed_at ≠ none)) := by
  by_cases hid : userId = "" ∨ courseId = ""
  · rw [show isEligibleForCertificate db userId courseId false false = false by
      simp [isEligibleForCertificate, hid]]
    simp only [Bool.false_eq_true, false_iff]
    rintro ⟨h1, h2, _⟩
    rcases hid with h | h
    · exact h1 h
    · exact h2 h
  · obtain ⟨h1, h2⟩ := not_or.1 hid
    rw [isEligible_eq_general db userId courseId false false hid]
    simp only [Bool.false_eq_true, if_false]
    rcases hcert : hasCertFor db userId courseId with _ | _
    · have hlen : ¬((getCertificates db (some userId) (some courseId)).length > 0) := by
        rw [getCertificates_pair_length]
        rw [(hasCertFor_eq_false_iff db userId courseId).1 hcert]
        exact Nat.lt_irrefl 0
      rw [if_neg hlen]
      rcases hone : exactlyOne (db.enrollments.filter
          (fun x => x.user_id = userId && x.course_id = courseId)) with _ | ⟨e⟩
      · simp only [hone, Bool.false_eq_true, false_iff]
        rintro ⟨_, _, h | ⟨e, he, _⟩⟩
        · exact h
        · exact Option.noConfusion he
      · simp only [hone]
        constructor
        · intro hb
          have hsplit := Bool.and_eq_true_iff.1 hb
          exact ⟨h1, h2, .inr ⟨e, rfl,
            of_decide_eq_true hsplit.1, of_decide_eq_true hsplit.2⟩⟩
        · rintro ⟨_, _, h | ⟨e2, he2, hp, hc⟩⟩
          · exact absurd h Bool.false_ne_true
          · have he3 : e2 = e := (Option.some.inj he2).symm
            subst he3
            exact Bool.and_eq_true_iff.2 ⟨decide_eq_true hp, decide_eq_true hc⟩
    · have hlen : (getCertificates db (some userId) (some courseId)).length > 0 := by
        rw [getCertificates_pair_length]
        exact (hasCertFor_eq_true_iff db userId courseId).1 hcert
      rw [if_pos hlen]
      simp only [true_iff]
      exact ⟨h1, h2, .inl trivial⟩

theorem isEligible_false_on_failure (db : DB) (userId courseId : String) (cf ef : Bool)
    (hcert : hasCertFor db userId courseId = false)
    (hfail : ef = true ∨ db.enrollments.filter
      (fun x => x.user_id = userId && x.course_id = courseId) = []) :
    isEligibleForCertificate db userId courseId cf ef = false := by
  by_cases hid : userId = "" ∨ courseId = ""
  · simp [isEligibleForCertificate, hid]
  · rw [isEligible_eq_general db userId courseId cf ef hid]
    have hnil : getCertificates db (some userId) (some courseId) = [] :=
      getCertificates_pair_nil db userId courseId hcert
    have hlen0 : ¬((if cf then ([] : List Certificate)
        else getCertificates db (some userId) (some courseId)).length > 0) := by
      cases cf
      · simp [hnil]
      · simp
    rw [if_neg hlen0]
    rcases hfail with hef | hfil
    · subst hef
      simp
    · cases ef with
      | true => simp
      | false =>
        have hexa : exactlyOne (db.enrollments.filter
            (fun x => x.user_id = userId && x.course_id = courseId)) = none := by
          rw [hfil]
          rfl
        simp [hexa]

theorem generateCertificate_not_eligible (courseId userId : String) (db : DB)
    (cache : ThrottlerCache) (now : Nat) (newId : String) (conc : Option CertificateDB)
    (h1 : courseId ≠ "") (h2 : userId ≠ "")
    (hcmiss : cacheLookup cache.certs (certCacheKey userId courseId) = none)
    (hemiss : cacheLookup cache.elig (eligCacheKey userId courseId) = none)
    (hsingle : maybeSingleCert db userId courseId = none)
    (hinel : isEligibleForCertificate db userId courseId false false = false) :
    generateCertificate courseId userId db cache now newId conc false false =
      (.error .notEligible, db,
        { cache with elig := cacheInsert cache.elig (eligCacheKey userId courseId) false }) := by
  simp only [generateCertificate]
  rw [if_neg (not_or.2 ⟨h1, h2⟩), hcmiss, hsingle]
  rw [show cachedEligibility db cache userId courseId false false =
      (false, { cache with elig := cacheInsert cache.elig (eligCacheKey userId courseId) false }) by
    simp [cachedEligibility, hemiss, hinel]]
  rfl

theorem markLessonRecalc_parts (userId courseId : String) (res : LessonProgress)
    (db1 : DB) (now : Nat) :
    (markLessonRecalc userId courseId res db1 now).1 = .ok res ∧
    (markLessonRecalc userId courseId res db1 now).2.lessonProgress = db1.lessonProgress ∧
    (markLessonRecalc userId courseId res db1 now).2.modules = db1.modules ∧
    (markLessonRecalc userId courseId res db1 now).2.lessons = db1.lessons := by
  refine ⟨?_, ?_, ?_, ?_⟩ <;> (simp only [markLessonRecalc]; repeat' split) <;> rfl

theorem courseLessons_congr {dba dbb : DB} (hm : dba.modules = dbb.modules)
    (hl : dba.lessons = dbb.lessons) (c : String) :
    courseLessons dba c = courseLessons dbb c := by
  unfold courseLessons courseModules
  rw [hm, hl]

theorem courseCompletedRows_congr {dba dbb : DB} (hm : dba.modules = dbb.modules)
    (hl : dba.lessons = dbb.lessons) (hp : dba.lessonProgress = dbb.lessonProgress)
    (u c : String) : courseCompletedRows dba u c = courseCompletedRows dbb u c := by
  unfold courseCompletedRows
  rw [courseLessons_congr hm hl, hp]

theorem enroll_map_progress_mem (l : List EnrollRow) (p : Nat) (uId cId : String) :
    ∀ e ∈ l.map (fun x => if x.user_id = uId && x.course_id = cId then
        { x with progress := p } else x),
      e.user_id = uId → e.course_id = cId → e.progress = p := by
  intro e he h1 h2
  obtain ⟨x, hx, hfx⟩ := List.mem_map.1 he
  by_cases hcond : (x.user_id = uId && x.course_id = cId) = true
  · rw [if_pos hcond] at hfx
    rw [← hfx]
  · rw [if_neg hcond] at hfx
    subst hfx
    exact absurd (Bool.and_eq_true_iff.2 ⟨decide_eq_true h1, decide_eq_true h2⟩) hcond

theorem enroll_map_completedAt_mem (l : List EnrollRow) (n : Nat) (uId cId : String) :
    ∀ e ∈ l.map (fun x => if x.user_id = uId && x.course_id = cId then
        { x with completed_at := some n } else x),
      e.user_id = uId → e.course_id = cId → e.completed_at = some n := by
  intro e he h1 h2
  obtain ⟨x, hx, hfx⟩ := List.mem_map.1 he
  by_cases hcond : (x.user_id = uId && x.course_id = cId) = true
  · rw [if_pos hcond] at hfx
    rw [← hfx]
  · rw [if_neg hcond] at hfx
    subst hfx
    exact absurd (Bool.and_eq_true_iff.2 ⟨decide_eq_true h1, decide_eq_true h2⟩) hcond

theorem enroll_map_completedAt_keeps (l : List EnrollRow) (n : Nat) (uId cId : String)
    (p : Nat) (hall : ∀ y ∈ l, y.user_id = uId → y.course_id = cId → y.progress = p) :
    ∀ e ∈ l.map (fun x => if x.user_id = uId && x.course_id = cId then
        { x with completed_at := some n } else x),
      e.user_id = uId → e.course_id = cId → e.progress = p := by
  intro e he h1 h2
  obtain ⟨x, hx, hfx⟩ := List.mem_map.1 he
  by_cases hcond : (x.user_id = uId && x.course_id = cId) = true
  · rw [if_pos hcond] at hfx
    rw [← hfx]
    obtain ⟨hx1, hx2⟩ := Bool.and_eq_true_iff.1 hcond
    exact hall x hx (of_decide_eq_true hx1) (of_decide_eq_true hx2)
  · rw [if_neg hcond] at hfx
    subst hfx
    exact hall x hx h1 h2

theorem pair_pred_fP (x : EnrollRow) (p : Nat) (uId cId : String) :
    (((fun x : EnrollRow => if x.user_id = uId && x.course_id = cId then
        { x with progress := p } else x) x).user_id = uId &&
     ((fun x : EnrollRow => if x.user_id = uId && x.course_id = cId then
        { x with progress := p } else x) x).course_id = cId) =
    (x.user_id = uId && x.course_id = cId) := by
  by_cases hc : (x.user_id = uId && x.course_id = cId) = true
  · simp only [if_pos hc]
  · simp only [if_neg hc]

theorem filter_map_pair (l : List EnrollRow) (p : Nat) (uId cId : String) :
    (l.map (fun x => if x.user_id = uId && x.course_id = cId then
        { x with progress := p } else x)).filter
      (fun e => e.user_id = uId && e.course_id = cId) =
    (l.filter (fun e => e.user_id = uId && e.course_id = cId)).map
      (fun x => if x.user_id = uId && x.course_id = cId then
        { x with progress := p } else x) := by
  rw [List.filter_map]
  exact congrArg _ (List.filter_congr (fun x _ => pair_pred_fP x p uId cId))

theorem markLessonRecalc_enroll (userId courseId : String) (res : LessonProgress)
    (db1 : DB) (now : Nat)
    (hm : courseModules db1 courseId ≠ [])
    (hl : courseLessons db1 courseId ≠ []) :
    (∀ e ∈ (markLessonRecalc userId courseId res db1 now).2.enrollments,
      e.user_id = userId → e.course_id = courseId →
      e.progress = jsRound100 (courseCompletedRows db1 userId courseId).length
        (courseLessons db1 courseId).length) ∧
    (jsRound100 (courseCompletedRows db1 userId courseId).length
        (courseLessons db1 courseId).length = 100 →
      ∀ e0, db1.enrollments.filter
          (fun e => e.user_id = userId && e.course_id = courseId) = [e0] →
        e0.completed_at = none →
        ∀ e ∈ (markLessonRecalc userId courseId res db1 now).2.enrollments,
          e.user_id = userId → e.course_id = courseId → e.completed_at = some now) := by
  have hm0 : (courseModules db1 courseId).isEmpty = false := by
    cases hie : (courseModules db1 courseId).isEmpty
    · rfl
    · exact absurd (List.isEmpty_iff.1 hie) hm
  have hl0 : (courseLessons db1 courseId).isEmpty = false := by
    cases hie : (courseLessons db1 courseId).isEmpty
    · rfl
    · exact absurd (List.isEmpty_iff.1 hie) hl
  have htot : (courseLessons db1 courseId).length > 0 := List.length_pos.2 hl
  simp only [markLessonRecalc, hm0, hl0, Bool.false_eq_true, if_false, if_pos htot]
  set pr := jsRound100 (courseCompletedRows db1 userId courseId).length
    (courseLessons db1 courseId).length with hpr
  by_cases h100 : pr = 100
  · rw [if_pos h100]
    rcases hx : exactlyOne ((db1.enrollments.map (fun e =>
        if e.user_id = userId && e.course_id = courseId then
          { e with progress := pr } else e)).filter
        (fun e => e.user_id = userId && e.course_id = courseId)) with _ | ⟨e⟩ <;>
      simp only [hx]
    · constructor
      · intro e he h1 h2
        exact enroll_map_progress_mem db1.enrollments pr userId courseId e he h1 h2
      · intro _ e0 hfil he0
        have hne : exactlyOne ((db1.enrollments.map (fun e =>
            if e.user_id = userId && e.course_id = courseId then
              { e with progress := pr } else e)).filter
            (fun e => e.user_id = userId && e.course_id = courseId)) ≠ none := by
          rw [filter_map_pair, hfil]
          simp [exactlyOne]
        exact absurd hx hne
    · by_cases hce : e.completed_at = none
      · rw [if_pos hce]
        constructor
        · intro x hx2 h1 h2
          exact enroll_map_completedAt_keeps _ now userId courseId pr
            (enroll_map_progress_mem db1.enrollments pr userId courseId) x hx2 h1 h2
        · intro _ e0 hfil he0 x hx2 h1 h2
          exact enroll_map_completedAt_mem _ now userId courseId x hx2 h1 h2
      · rw [if_neg hce]
        constructor
        · intro x hx2 h1 h2
          exact enroll_map_progress_mem db1.enrollments pr userId courseId x hx2 h1 h2
        · intro _ e0 hfil he0
          exfalso
          have hmem : e0 ∈ db1.enrollments.filter
              (fun e => e.user_id = userId && e.course_id = courseId) := by
            rw [hfil]
            exact List.mem_singleton.2 rfl
          have hpred : (e0.user_id = userId && e0.course_id = courseId) = true :=
            (List.mem_filter.1 hmem).2
          have hexa : exactlyOne ((db1.enrollments.map (fun e =>
              if e.user_id = userId && e.course_id = courseId then
                { e with progress := pr } else e)).filter
              (fun e => e.user_id = userId && e.course_id = courseId)) =
              some { e0 with progress := pr } := by
            rw [filter_map_pair, hfil]
            simp only [List.map_cons, List.map_nil, if_pos hpred]
            rfl
          rw [hx] at hexa
          have he2 : e = { e0 with progress := pr } := Option.some.inj hexa
          rw [he2] at hce
          exact hce he0
  · rw [if_neg h100]
    constructor
    · intro e he h1 h2
      exact enroll_map_progress_mem db1.enrollments pr userId courseId e he h1 h2
    · intro hcontra
      exact absurd hcontra h100

theorem exactlyOne_mem {α : Type} {l : List α} {x : α} (h : exactlyOne l = some x) :
    x ∈ l := by
  match l with
  | [] => exact absurd h (by simp [exactlyOne])
  | [a] =>
    rw [show x = a from (Option.some.inj h).symm]
    exact List.mem_singleton.2 rfl
  | a :: b :: t => exact absurd h (by simp [exactlyOne])

theorem err_ne_ok {ε α : Type} {msg : ε} {res : α} {dbx dby : DB}
    (h : ((Except.error msg : Except ε α), dbx) = (.ok res, dby)) : False :=
  Except.noConfusion (congrArg Prod.fst h)

/-- C1: For every (user, course) pair, the certificate pipeline issues at most
one certificate: when a certificate already exists for the pair,
`createCertificate` returns it and inserts nothing, and so does
`generateCertificate` (caching it); when a concurrent insert makes the insert
fail with a duplicate-key error (PostgreSQL code 23505), `createCertificate`
recovers by fetching and returning the already-existing certificate, leaving
exactly one row for the pair; and both operations preserve the
at-most-one-certificate-per-pair invariant of the database. -/
theorem certificate_at_most_one_per_pair :
    (∀ (d : CreateCertificateData) (db : DB) (now : Nat) (newId : String)
        (conc : Option CertificateDB),
      d.userId ≠ "" → d.courseId ≠ "" → d.userName ≠ "" → d.courseName ≠ "" →
      hasCertFor db d.userId d.courseId = true →
      ∃ c0 rest, getCertificates db (some d.userId) (some d.courseId) = c0 :: rest ∧
        createCertificate d db now newId conc = (.ok c0, db)) ∧
    (∀ (d : CreateCertificateData) (db : DB) (now : Nat) (newId : String)
        (cc : CertificateDB),
      d.userId ≠ "" → d.courseId ≠ "" → d.userName ≠ "" → d.courseName ≠ "" →
      hasCertFor db d.userId d.courseId = false →
      cc.user_id = d.userId → cc.course_id = d.courseId →
      ∃ db', createCertificate d db now newId (some cc) =
          (.ok (mapToCertificate cc), db') ∧
        db'.certificates = cc :: db.certificates ∧
        certCountL db'.certificates d.userId d.courseId = 1) ∧
    (∀ (d : CreateCertificateData) (db : DB) (now : Nat) (newId : String)
        (conc : Option CertificateDB),
      atMostOneCert db → atMostOneCert (createCertificate d db now newId conc).2) ∧
    (∀ (courseId userId : String) (db : DB) (cache : ThrottlerCache) (now : Nat)
        (newId : String) (conc : Option CertificateDB) (cf ef : Bool),
      courseId ≠ "" → userId ≠ "" →
      cacheLookup cache.certs (certCacheKey userId courseId) = none →
      ∀ row, maybeSingleCert db userId courseId = some row →
      generateCertificate courseId userId db cache now newId conc cf ef =
        (.ok (mapToCertificate row), db,
          { cache with certs := cacheInsert cache.certs (certCacheKey userId courseId) (mapToCertificate row) })) ∧
    (∀ (courseId userId : String) (db : DB) (cache : ThrottlerCache) (now : Nat)
        (newId : String) (conc : Option CertificateDB) (cf ef : Bool),
      atMostOneCert db →
      atMostOneCert (generateCertificate courseId userId db cache now newId conc cf ef).2.1) :=
  ⟨createCertificate_existing, createCertificate_concurrent, createCertificate_preserves,
    fun courseId userId db cache now newId conc cf ef hcu hus hmiss row hrow =>
      generateCertificate_existing courseId userId db cache now newId conc cf ef
        hcu hus hmiss row hrow,
    generateCertificate_preserves⟩

/-- Witness for C1 at a concrete database already holding a certificate for
`("u1", "c1")`: `createCertificate` returns the existing certificate and
leaves the database unchanged. -/
theorem certificate_at_most_one_per_pair_witness :
    ∃ c0 rest, getCertificates dbWithCert (some dataA.userId) (some dataA.courseId) = c0 :: rest ∧
      createCertificate dataA dbWithCert 5 "n1" none = (.ok c0, dbWithCert) :=
  certificate_at_most_one_per_pair.1 dataA dbWithCert 5 "n1" none
    (by decide) (by decide) (by decide) (by decide) (by decide)

/-- C3: Certificate issuance is idempotent: a second `generateCertificate`
call after a successful first call returns the same certificate with database
and cache unchanged (served from the certificate cache), and a second
`createCertificate` call with the same data after a successful first call
returns the same certificate with the database unchanged (via the
existing-certificate lookup), performing no second insert and raising no
error. -/
theorem certificate_issuance_idempotent :
    (∀ (courseId userId : String) (db : DB) (cache : ThrottlerCache) (now : Nat)
        (newId : String) (conc : Option CertificateDB) (cf ef : Bool)
        (cert : Certificate) (db1 : DB) (cache1 : ThrottlerCache),
      generateCertificate courseId userId db cache now newId conc cf ef =
        (.ok cert, db1, cache1) →
      ∀ (now2 : Nat) (newId2 : String) (conc2 : Option CertificateDB) (cf2 ef2 : Bool),
        generateCertificate courseId userId db1 cache1 now2 newId2 conc2 cf2 ef2 =
          (.ok cert, db1, cache1)) ∧
    (∀ (d : CreateCertificateData) (db : DB) (now : Nat) (newId : String)
        (conc : Option CertificateDB) (cert : Certificate) (db1 : DB),
      createCertificate d db now newId conc = (.ok cert, db1) →
      ∀ (now2 : Nat) (newId2 : String) (conc2 : Option CertificateDB),
        createCertificate d db1 now2 newId2 conc2 = (.ok cert, db1)) :=
  ⟨generateCertificate_idempotent, createCertificate_idempotent⟩

/-- Witness for C3 at a concrete completed enrollment: the first
`generateCertificate` call issues `genCert1` and the second call returns the
same certificate with database and cache unchanged. -/
theorem certificate_issuance_idempotent_witness :
    generateCertificate "c1" "u1" dbElig emptyCache 50 "cert1" none false false =
      (.ok genCert1, genDb1, genCache1) ∧
    generateCertificate "c1" "u1" genDb1 genCache1 60 "cert2" (some certA) true true =
      (.ok genCert1, genDb1, genCache1) :=
  ⟨by decide, certificate_issuance_idempotent.1 "c1" "u1" dbElig emptyCache 50 "cert1"
    none false false genCert1 genDb1 genCache1 (by decide) 60 "cert2" (some certA) true true⟩

/-- C4: Certificate issuance is conditional on course completion:
`isEligibleForCertificate` returns `true` exactly when a certificate already
exists for the pair or the enrollment has `progress === 100` and a non-null
`completed_at` (given non-empty ids); it returns `false` — never throwing — on
an enrollment-lookup failure or a missing enrollment; and for a pair with no
existing certificate and an ineligible enrollment, `generateCertificate`
throws (`notEligible`) and inserts nothing, leaving the database unchanged. -/
theorem certificate_requires_completion :
    (∀ (db : DB) (userId courseId : String),
      isEligibleForCertificate db userId courseId false false = true ↔
        (userId ≠ "" ∧ courseId ≠ "" ∧
          (hasCertFor db userId courseId = true ∨
            ∃ e, exactlyOne (db.enrollments.filter
                (fun x => x.user_id = userId && x.course_id = courseId)) = some e ∧
              e.progress = 100 ∧ e.completed_at ≠ none))) ∧
    (∀ (db : DB) (userId courseId : String) (cf ef : Bool),
      hasCertFor db userId courseId = false →
      (ef = true ∨ db.enrollments.filter
        (fun x => x.user_id = userId && x.course_id = courseId) = []) →
      isEligibleForCertificate db userId courseId cf ef = false) ∧
    (∀ (courseId userId : String) (db : DB) (cache : ThrottlerCache) (now : Nat)
        (newId : String) (conc : Option CertificateDB),
      courseId ≠ "" → userId ≠ "" →
      cacheLookup cache.certs (certCacheKey userId courseId) = none →
      cacheLookup cache.elig (eligCacheKey userId courseId) = none →
      maybeSingleCert db userId courseId = none →
      isEligibleForCertificate db userId courseId false false = false →
      generateCertificate courseId userId db cache now newId conc false false =
        (.error .notEligible, db,
          { cache with elig := cacheInsert cache.elig (eligCacheKey userId courseId) false })) :=
  ⟨isEligible_characterization, isEligible_false_on_failure, generateCertificate_not_eligible⟩

/-- Witness for C4 at a 50%-progress enrollment with no certificate:
`generateCertificate` throws `notEligible` and leaves the database unchanged. -/
theorem certificate_requires_completion_witness :
    generateCertificate "c1" "u1" dbNotDone emptyCache 50 "certX" none false false =
      (.error .notEligible, dbNotDone,
        { emptyCache with elig := cacheInsert emptyCache.elig (eligCacheKey "u1" "c1") false }) :=
  certificate_requires_completion.2.2 "c1" "u1" dbNotDone emptyCache 50 "certX" none
    (by decide) (by decide) (by decide) (by decide) (by decide) (by decide)

theorem lesson_completion_core (userId lessonId : String) (db db1 : DB) (now : Nat)
    (l : LessonRow) (m : ModuleRow)
    (hmid : m.id = l.module_id) (hmmem : m ∈ db.modules) (hlmem : l ∈ db.lessons)
    (hdb1m : db1.modules = db.modules) (hdb1l : db1.lessons = db.lessons)
    (hdb1e : db1.enrollments = db.enrollments)
    (hwit : ∃ p ∈ db1.lessonProgress,
      p.user_id = userId ∧ p.lesson_id = lessonId ∧ p.completed = true)
    (res0 res : LessonProgress) (db' : DB)
    (hok : markLessonRecalc userId m.course_id res0 db1 now = (.ok res, db')) :
    (∃ p ∈ db'.lessonProgress,
      p.user_id = userId ∧ p.lesson_id = lessonId ∧ p.completed = true) ∧
    (∀ e ∈ db'.enrollments, e.user_id = userId → e.course_id = m.course_id →
      e.progress = jsRound100 (courseCompletedRows db' userId m.course_id).length
        (courseLessons db' m.course_id).length) ∧
    (jsRound100 (courseCompletedRows db' userId m.course_id).length
        (courseLessons db' m.course_id).length = 100 →
      ∀ e0, db.enrollments.filter
          (fun e => e.user_id = userId && e.course_id = m.course_id) = [e0] →
        e0.completed_at = none →
        ∀ e ∈ db'.enrollments, e.user_id = userId → e.course_id = m.course_id →
          e.completed_at = some now) := by
  have hdb' : (markLessonRecalc userId m.course_id res0 db1 now).2 = db' :=
    congrArg Prod.snd hok
  have parts := markLessonRecalc_parts userId m.course_id res0 db1 now
  have hmmem1 : m ∈ db1.modules := hdb1m ▸ hmmem
  have hcm : m ∈ courseModules db1 m.course_id :=
    List.mem_filter.2 ⟨hmmem1, by simp⟩
  have hm2 : courseModules db1 m.course_id ≠ [] := List.ne_nil_of_mem hcm
  have hlmem1 : l ∈ db1.lessons := hdb1l ▸ hlmem
  have hcl : l ∈ courseLessons db1 m.course_id := by
    refine List.mem_filter.2 ⟨hlmem1, ?_⟩
    have hid : l.module_id ∈ (courseModules db1 m.course_id).map (fun mm => mm.id) := by
      rw [← hmid]
      exact List.mem_map_of_mem _ hcm
    simpa using hid
  have hl2 : courseLessons db1 m.course_id ≠ [] := List.ne_nil_of_mem hcl
  obtain ⟨henr, hcomp⟩ := markLessonRecalc_enroll userId m.course_id res0 db1 now hm2 hl2
  have hmods : db'.modules = db1.modules := by rw [← hdb']; exact parts.2.2.1
  have hless : db'.lessons = db1.lessons := by rw [← hdb']; exact parts.2.2.2
  have hlp : db'.lessonProgress = db1.lessonProgress := by rw [← hdb']; exact parts.2.1
  have hcc : courseCompletedRows db' userId m.course_id =
      courseCompletedRows db1 userId m.course_id :=
    courseCompletedRows_congr hmods hless hlp userId m.course_id
  have hclx : courseLessons db' m.course_id = courseLessons db1 m.course_id :=
    courseLessons_congr hmods hless m.course_id
  refine ⟨?_, ?_, ?_⟩
  · obtain ⟨p, hp, h1, h2, h3⟩ := hwit
    refine ⟨p, ?_, h1, h2, h3⟩
    rw [hlp]
    exact hp
  · intro e he h1 h2
    rw [hcc, hclx]
    rw [← hdb'] at he
    exact henr e he h1 h2
  · intro h100 e0 hfil he0 e he h1 h2
    rw [hcc, hclx] at h100
    rw [← hdb'] at he
    refine hcomp h100 e0 ?_ he0 e he h1 h2
    rw [hdb1e]
    exact hfil

/-- C2: after a successful `markLessonAsCompleted(userId, lessonId)` for a
lesson of module `m` of some course, a completed `lesson_progress` row for
`(userId, lessonId)` exists; every enrollment of the user in that course
carries `round(100 * completedLessonCount / totalLessonCount)` computed over
all lessons of all modules of the course; and when that progress is 100 and
the enrollment had no `completed_at` yet, `completed_at` is set. -/
theorem lesson_completion_updates_progress
    (userId lessonId : String) (db : DB) (now : Nat) (newId : String)
    (l : LessonRow) (m : ModuleRow)
    (hl : exactlyOne (db.lessons.filter (fun x => x.id = lessonId)) = some l)
    (hm : exactlyOne (db.modules.filter (fun x => x.id = l.module_id)) = some m)
    (res : LessonProgress) (db' : DB)
    (hok : markLessonAsCompleted userId lessonId db now newId = (.ok res, db')) :
    (∃ p ∈ db'.lessonProgress,
      p.user_id = userId ∧ p.lesson_id = lessonId ∧ p.completed = true) ∧
    (∀ e ∈ db'.enrollments, e.user_id = userId → e.course_id = m.course_id →
      e.progress = jsRound100 (courseCompletedRows db' userId m.course_id).length
        (courseLessons db' m.course_id).length) ∧
    (jsRound100 (courseCompletedRows db' userId m.course_id).length
        (courseLessons db' m.course_id).length = 100 →
      ∀ e0, db.enrollments.filter
          (fun e => e.user_id = userId && e.course_id = m.course_id) = [e0] →
        e0.completed_at = none →
        ∀ e ∈ db'.enrollments, e.user_id = userId → e.course_id = m.course_id →
          e.completed_at = some now) := by
  have hlmem0 := exactlyOne_mem hl
  have hlmem : l ∈ db.lessons := (List.mem_filter.1 hlmem0).1
  have hlid : l.id = lessonId := of_decide_eq_true (List.mem_filter.1 hlmem0).2
  have hmmem0 := exactlyOne_mem hm
  have hmmem : m ∈ db.modules := (List.mem_filter.1 hmmem0).1
  have hmid : m.id = l.module_id := of_decide_eq_true (List.mem_filter.1 hmmem0).2
  simp only [markLessonAsCompleted, hl, hm] at hok
  by_cases hmod : l.module_id = ""
  · rw [if_pos hmod] at hok
    exact absurd hok (fun hc => err_ne_ok hc)
  rw [if_neg hmod] at hok
  by_cases hcid : m.course_id = ""
  · rw [if_pos hcid] at hok
    exact absurd hok (fun hc => err_ne_ok hc)
  rw [if_neg hcid] at hok
  by_cases hlen : (db.lessonProgress.filter
      (fun p => p.user_id = userId && p.lesson_id = lessonId)).length > 1
  · rw [if_pos hlen] at hok
    exact absurd hok (fun hc => err_ne_ok hc)
  rw [if_neg hlen] at hok
  rcases hmatch : db.lessonProgress.filter
      (fun p => p.user_id = userId && p.lesson_id = lessonId) with _ | ⟨ep, restp⟩ <;>
    simp only [hmatch] at hok
  · -- insert path: the fresh row is the head of the new lessonProgress list
    refine lesson_completion_core userId lessonId db
      { db with lessonProgress := ⟨newId, userId, lessonId, true, some now⟩ :: db.lessonProgress }
      now l m hmid hmmem hlmem rfl rfl rfl ?_ _ res db' hok
    exact ⟨⟨newId, userId, lessonId, true, some now⟩, List.mem_cons_self _ _, rfl, rfl, rfl⟩
  · -- update path
    have hepmem : ep ∈ db.lessonProgress.filter
        (fun p => p.user_id = userId && p.lesson_id = lessonId) := by
      rw [hmatch]
      exact List.mem_cons_self ep restp
    have hepPred := (List.mem_filter.1 hepmem).2
    have hepU : ep.user_id = userId :=
      of_decide_eq_true (Bool.and_eq_true_iff.1 hepPred).1
    have hepL : ep.lesson_id = lessonId :=
      of_decide_eq_true (Bool.and_eq_true_iff.1 hepPred).2
    rcases hrow : exactlyOne ((db.lessonProgress.map (fun q =>
        if q.id = ep.id then { q with completed := true, completed_at := some now }
        else q)).filter (fun q => q.id = ep.id)) with _ | ⟨row⟩ <;>
      simp only [hrow] at hok
    · exact absurd hok (fun hc => err_ne_ok hc)
    · refine lesson_completion_core userId lessonId db
        { db with lessonProgress := db.lessonProgress.map (fun q =>
          if q.id = ep.id then { q with completed := true, completed_at := some now }
          else q) }
        now l m hmid hmmem hlmem rfl rfl rfl ?_ _ res db' hok
      refine ⟨{ ep with completed := true, completed_at := some now }, ?_, hepU, hepL, rfl⟩
      have hepmem2 : ep ∈ db.lessonProgress := (List.mem_filter.1 hepmem).1
      have hfep : (fun q : LPRow =>
          if q.id = ep.id then { q with completed := true, completed_at := some now }
          else q) ep = { ep with completed := true, completed_at := some now } := by
        simp
      rw [← hfep]
      exact List.mem_map_of_mem _ hepmem2

/-- Witness for C2: completing lesson `l2` (the last one) on `dbCourse` yields
a completed progress row, an enrollment at 100%, and a freshly set
completion date. -/
theorem lesson_completion_updates_progress_witness :
    (∃ p ∈ markDb.lessonProgress,
      p.user_id = "u1" ∧ p.lesson_id = "l2" ∧ p.completed = true) ∧
    (∀ e ∈ markDb.enrollments, e.user_id = "u1" → e.course_id = modM1.course_id →
      e.progress = jsRound100 (courseCompletedRows markDb "u1" modM1.course_id).length
        (courseLessons markDb modM1.course_id).length) ∧
    (jsRound100 (courseCompletedRows markDb "u1" modM1.course_id).length
        (courseLessons markDb modM1.course_id).length = 100 →
      ∀ e0, dbCourse.enrollments.filter
          (fun e => e.user_id = "u1" && e.course_id = modM1.course_id) = [e0] →
        e0.completed_at = none →
        ∀ e ∈ markDb.enrollments, e.user_id = "u1" → e.course_id = modM1.course_id →
          e.completed_at = some 100) :=
  lesson_completion_updates_progress "u1" "l2" dbCourse 100 "p2" lesL2 modM1
    (by decide) (by decide) markRes markDb (by decide)

/-- C8: `enrollCourse` never creates a duplicate enrollment and never throws
(the model is a total function): an existing enrollment for the pair yields
the already-enrolled message with the state unchanged, a fresh pair inserts
exactly one enrollment with progress 0, and any database error yields the
generic error message with the state unchanged. -/
theorem enroll_course_no_duplicates (courseId userId : String) (db : DB) (now : Nat)
    (checkFail insertFail : Bool)
    (huniq : (db.enrollments.filter
      (fun e => e.user_id = userId && e.course_id = courseId)).length ≤ 1) :
    (checkFail = false →
      db.enrollments.filter (fun e => e.user_id = userId && e.course_id = courseId) ≠ [] →
      enrollCourse courseId userId db now checkFail insertFail =
        ({ success := false, message := "Você já está matriculado neste curso.",
           enrollment := none }, db)) ∧
    (checkFail = false → insertFail = false →
      db.enrollments.filter (fun e => e.user_id = userId && e.course_id = courseId) = [] →
      enrollCourse courseId userId db now checkFail insertFail =
        ({ success := true, message := "Matrícula realizada com sucesso!",
           enrollment := some (enrollRowOf userId courseId now) },
         { db with enrollments := enrollRowOf userId courseId now :: db.enrollments })) ∧
    (checkFail = true →
      enrollCourse courseId userId db now checkFail insertFail =
        ({ success := false, message := "Erro ao realizar matrícula.", enrollment := none }, db)) ∧
    (checkFail = false → insertFail = true →
      db.enrollments.filter (fun e => e.user_id = userId && e.course_id = courseId) = [] →
      enrollCourse courseId userId db now checkFail insertFail =
        ({ success := false, message := "Erro ao realizar matrícula.", enrollment := none }, db)) := by
  have hnot : ¬((db.enrollments.filter
      (fun e => e.user_id = userId && e.course_id = courseId)).length > 1) := by
    omega
  refine ⟨?_, ?_, ?_, ?_⟩
  · intro hcf hne
    subst hcf
    simp only [enrollCourse, Bool.false_eq_true, if_false, if_neg hnot]
    rcases hq : db.enrollments.filter
        (fun e => e.user_id = userId && e.course_id = courseId) with _ | ⟨e0, rest⟩
    · exact absurd hq hne
    · simp only [hq]
  · intro hcf hif hq
    subst hcf
    subst hif
    simp only [enrollCourse, Bool.false_eq_true, if_false, if_neg hnot, hq]
    rfl
  · intro hcf
    subst hcf
    simp only [enrollCourse, if_true]
  · intro hcf hif hq
    subst hcf
    subst hif
    simp only [enrollCourse, Bool.false_eq_true, if_false, if_neg hnot, hq, if_true]
    rfl

/-- Witness for C8: enrolling `u2` (not yet enrolled) in `c1` on `dbCourse`
inserts exactly one fresh enrollment with progress 0. -/
theorem enroll_course_no_duplicates_witness :
    enrollCourse "c1" "u2" dbCourse 77 false false =
      ({ success := true, message := "Matrícula realizada com sucesso!",
         enrollment := some (enrollRowOf "u2" "c1" 77) },
       { dbCourse with enrollments := enrollRowOf "u2" "c1" 77 :: dbCourse.enrollments }) :=
  (enroll_course_no_duplicates "c1" "u2" dbCourse 77 false false (by decide)).2.1
    rfl rfl (by decide)

theorem jsRound100_le_100 (c t : Nat) (hct : c ≤ t) (ht : 0 < t) :
    jsRound100 c t ≤ 100 := by
  unfold jsRound100
  have h1 : 200 * c + t ≤ 201 * t := by omega
  have h2 : (200 * c + t) / (2 * t) ≤ 201 * t / (2 * t) := Nat.div_le_div_right h1
  have h3 : 201 * t / (2 * t) = 100 := by
    have he : 201 * t = 2 * t * 100 + t := by ring
    rw [he, Nat.mul_add_div (by omega)]
    rw [Nat.div_eq_of_lt (by omega : t < 2 * t)]
  omega

theorem nodup_subset_length {α : Type} [DecidableEq α] (l1 l2 : List α)
    (h1 : l1.Nodup) (h2 : l1 ⊆ l2) : l1.length ≤ l2.length := by
  calc l1.length = l1.toFinset.card := (List.toFinset_card_of_nodup h1).symm
    _ ≤ l2.toFinset.card := Finset.card_le_card (fun x hx => by
        simp only [List.mem_toFinset] at hx ⊢
        exact h2 hx)
    _ ≤ l2.length := List.toFinset_card_le l2

theorem completedRows_le_lessons (db : DB) (userId courseId : String)
    (hLids : (db.lessons.map (fun x => x.id)).Nodup)
    (hLP : ((db.lessonProgress.filter (fun p => p.user_id = userId)).map
      (fun p => p.lesson_id)).Nodup) :
    (courseCompletedRows db userId courseId).length ≤
      (courseLessons db courseId).length := by
  have hsubL : (courseLessons db courseId).Sublist db.lessons := List.filter_sublist _
  have hnodupL : ((courseLessons db courseId).map (fun x => x.id)).Nodup :=
    List.Nodup.sublist (hsubL.map _) hLids
  have hre : courseCompletedRows db userId courseId =
      (db.lessonProgress.filter (fun p => p.user_id = userId)).filter
        (fun p => p.completed &&
          ((courseLessons db courseId).map (fun l => l.id)).contains p.lesson_id) := by
    unfold courseCompletedRows
    rw [List.filter_filter]
    refine List.filter_congr (fun x _ => ?_)
    cases h1 : (decide (x.user_id = userId)) <;> cases h2 : x.completed <;>
      cases h3 : ((courseLessons db courseId).map (fun l => l.id)).contains x.lesson_id <;>
      simp [h1, h2, h3]
  have hsubR : (courseCompletedRows db userId courseId).Sublist
      (db.lessonProgress.filter (fun p => p.user_id = userId)) := by
    rw [hre]
    exact List.filter_sublist _
  have hnodupR : ((courseCompletedRows db userId courseId).map
      (fun p => p.lesson_id)).Nodup :=
    List.Nodup.sublist (hsubR.map _) hLP
  have hsubset : ((courseCompletedRows db userId courseId).map (fun p => p.lesson_id)) ⊆
      ((courseLessons db courseId).map (fun l => l.id)) := by
    intro a ha
    obtain ⟨p, hp, hpa⟩ := List.mem_map.1 ha
    have hpred := (List.mem_filter.1 hp).2
    have hcont := (Bool.and_eq_true_iff.1 hpred).2
    rw [← hpa]
    simpa using hcont
  calc (courseCompletedRows db userId courseId).length
      = ((courseCompletedRows db userId courseId).map (fun p => p.lesson_id)).length :=
        (List.length_map _ _).symm
    _ ≤ ((courseLessons db courseId).map (fun l => l.id)).length :=
        nodup_subset_length _ _ hnodupR hsubset
    _ = (courseLessons db courseId).length := List.length_map _ _

theorem calc_result_shape (userId courseId : String) (db : DB)
    (cache : ThrottlerCache) (now : Nat) (newId : String) (flags : CalcFlags) :
    (calculateCourseProgress userId courseId db cache now newId flags).1 = 0 ∨
    ((calculateCourseProgress userId courseId db cache now newId flags).1 =
        jsRound100 (courseCompletedRows db userId courseId).length
          (courseLessons db courseId).length ∧
      userId ≠ "" ∧ courseId ≠ "" ∧ flags.modulesFail = false ∧
      courseModules db courseId ≠ [] ∧ flags.lessonsFail = false ∧
      courseLessons db courseId ≠ [] ∧ flags.progressFail = false ∧
      flags.enrollFail = false) := by
  simp only [calculateCourseProgress]
  split
  · exact .inl rfl
  split
  · exact .inl rfl
  split
  · exact .inl rfl
  split
  · exact .inl rfl
  split
  · exact .inl rfl
  split
  · exact .inl rfl
  split
  · exact .inl rfl
  rename_i hids hmf hmemp hlf hlemp hpf hef
  have hmne : courseModules db courseId ≠ [] := by
    intro hc
    exact hmemp (by rw [hc]; rfl)
  have hlne : courseLessons db courseId ≠ [] := by
    intro hc
    exact hlemp (by rw [hc]; rfl)
  have hconds : userId ≠ "" ∧ courseId ≠ "" ∧ flags.modulesFail = false ∧
      courseModules db courseId ≠ [] ∧ flags.lessonsFail = false ∧
      courseLessons db courseId ≠ [] ∧ flags.progressFail = false ∧
      flags.enrollFail = false :=
    ⟨(not_or.1 hids).1, (not_or.1 hids).2, Bool.eq_false_iff.2 hmf, hmne,
      Bool.eq_false_iff.2 hlf, hlne, Bool.eq_false_iff.2 hpf, Bool.eq_false_iff.2 hef⟩
  have htot : 0 < (courseLessons db courseId).length := List.length_pos.2 hlne
  rw [if_pos htot]
  split
  · rcases hcs : calcCertStep userId courseId
        (calcUpdateEnrollments userId courseId db now
          (jsRound100 (courseCompletedRows db userId courseId).length
            (courseLessons db courseId).length))
        cache now newId flags.certsLookupFail with ⟨db2, cache2⟩
    exact .inr ⟨rfl, hconds⟩
  · exact .inr ⟨rfl, hconds⟩

theorem calc_success_eq (userId courseId : String) (db : DB)
    (cache : ThrottlerCache) (now : Nat) (newId : String)
    (h1 : userId ≠ "") (h2 : courseId ≠ "")
    (hm : courseModules db courseId ≠ []) (hl : courseLessons db courseId ≠ []) :
    (calculateCourseProgress userId courseId db cache now newId CalcFlags.none).1 =
      jsRound100 (courseCompletedRows db userId courseId).length
        (courseLessons db courseId).length := by
  have hm0 : (courseModules db courseId).isEmpty = false := by
    cases hie : (courseModules db courseId).isEmpty
    · rfl
    · exact absurd (List.isEmpty_iff.1 hie) hm
  have hl0 : (courseLessons db courseId).isEmpty = false := by
    cases hie : (courseLessons db courseId).isEmpty
    · rfl
    · exact absurd (List.isEmpty_iff.1 hie) hl
  have htot : 0 < (courseLessons db courseId).length := List.length_pos.2 hl
  simp only [calculateCourseProgress, CalcFlags.none, hm0, hl0,
    Bool.false_eq_true, if_false]
  rw [if_neg (not_or.2 ⟨h1, h2⟩), if_pos htot]
  split
  · rcases hcs : calcCertStep userId courseId
        (calcUpdateEnrollments userId courseId db now
          (jsRound100 (courseCompletedRows db userId courseId).length
            (courseLessons db courseId).length))
        cache now newId false with ⟨db2, cache2⟩
    rfl
  · rfl

theorem calc_zero (userId courseId : String) (db : DB) (cache : ThrottlerCache)
    (now : Nat) (newId : String) (flags : CalcFlags)
    (h : userId = "" ∨ courseId = "" ∨ flags.modulesFail = true ∨
      courseModules db courseId = [] ∨ flags.lessonsFail = true ∨
      courseLessons db courseId = [] ∨ flags.progressFail = true ∨
      flags.enrollFail = true) :
    (calculateCourseProgress userId courseId db cache now newId flags).1 = 0 := by
  rcases calc_result_shape userId courseId db cache now newId flags with h0 | ⟨_, hc⟩
  · exact h0
  · obtain ⟨hu, hcid, hmf, hmm, hlf, hll, hpf, hef⟩ := hc
    rcases h with h | h | h | h | h | h | h | h
    · exact absurd h hu
    · exact absurd h hcid
    · rw [hmf] at h
      exact absurd h (by simp)
    · exact absurd h hmm
    · rw [hlf] at h
      exact absurd h (by simp)
    · exact absurd h hll
    · rw [hpf] at h
      exact absurd h (by simp)
    · rw [hef] at h
      exact absurd h (by simp)

/-- C9: `calculateCourseProgress` is total (the model is a function into `Nat`)
and range-bounded: under the schema invariants (distinct lesson ids, at most
one progress row per lesson for the user) the result is at most 100; on the
fully-successful path it equals `round(100 * completedLessonCount /
totalLessonCount)`; and on every error or empty-input branch — empty ids,
failed modules/lessons/progress/enrollment queries, courses with no modules or
no lessons — it is 0. -/
theorem calculate_progress_total_bounded (userId courseId : String) (db : DB)
    (cache : ThrottlerCache) (now : Nat) (newId : String) (flags : CalcFlags)
    (hLids : (db.lessons.map (fun x => x.id)).Nodup)
    (hLP : ((db.lessonProgress.filter (fun p => p.user_id = userId)).map
      (fun p => p.lesson_id)).Nodup) :
    (calculateCourseProgress userId courseId db cache now newId flags).1 ≤ 100 ∧
    (userId ≠ "" → courseId ≠ "" → courseModules db courseId ≠ [] →
      courseLessons db courseId ≠ [] →
      (calculateCourseProgress userId courseId db cache now newId CalcFlags.none).1 =
        jsRound100 (courseCompletedRows db userId courseId).length
          (courseLessons db courseId).length) ∧
    (userId = "" ∨ courseId = "" ∨ flags.modulesFail = true ∨
      courseModules db courseId = [] ∨ flags.lessonsFail = true ∨
      courseLessons db courseId = [] ∨ flags.progressFail = true ∨
      flags.enrollFail = true →
      (calculateCourseProgress userId courseId db cache now newId flags).1 = 0) := by
  refine ⟨?_, ?_, ?_⟩
  · rcases calc_result_shape userId courseId db cache now newId flags with h0 | ⟨hf, hc⟩
    · omega
    · rw [hf]
      exact jsRound100_le_100 _ _ (completedRows_le_lessons db userId courseId hLids hLP)
        (List.length_pos.2 hc.2.2.2.2.2.1)
  · intro h1 h2 hm hl
    exact calc_success_eq userId courseId db cache now newId h1 h2 hm hl
  · exact calc_zero userId courseId db cache now newId flags

/-- Witness for C9 on `dbCourse` (one of two lessons completed): the result is
50 = round(100 * 1 / 2), within bounds, and the empty-user call yields 0. -/
theorem calculate_progress_total_bounded_witness :
    (calculateCourseProgress "u1" "c1" dbCourse emptyCache 9 "n" CalcFlags.none).1 ≤ 100 ∧
    (calculateCourseProgress "u1" "c1" dbCourse emptyCache 9 "n" CalcFlags.none).1 =
      jsRound100 (courseCompletedRows dbCourse "u1" "c1").length
        (courseLessons dbCourse "c1").length := by
  have h := calculate_progress_total_bounded "u1" "c1" dbCourse emptyCache 9 "n"
    CalcFlags.none (by decide) (by decide)
  exact ⟨h.1, h.2.1 (by decide) (by decide) (by decide) (by decide)⟩

theorem moduleEntry_id (db : DB) (lessonsFail : String → Bool) (m : ModuleRow) :
    (moduleEntry db lessonsFail m).id = m.id := by
  unfold moduleEntry
  by_cases h : lessonsFail m.id = true
  · rw [if_pos h]
    rfl
  · rw [if_neg h]
    rfl

theorem moduleEntry_fail_lessons (db : DB) (lessonsFail : String → Bool)
    (m : ModuleRow) (h : lessonsFail m.id = true) :
    (moduleEntry db lessonsFail m).lessons = [] := by
  unfold moduleEntry
  rw [if_pos h]
  rfl

theorem moduleEntry_lessons_sorted (db : DB) (lessonsFail : String → Bool)
    (m : ModuleRow) :
    List.Pairwise (fun a b : Lesson => a.order ≤ b.order)
      (moduleEntry db lessonsFail m).lessons := by
  unfold moduleEntry
  by_cases h : lessonsFail m.id = true
  · rw [if_pos h]
    exact List.Pairwise.nil
  · rw [if_neg h]
    show List.Pairwise _ ((moduleLessonsQuery db m.id).map toLesson)
    have hs : List.Pairwise (fun a b : LessonRow => a.order_number ≤ b.order_number)
        (moduleLessonsQuery db m.id) := by
      haveI : IsTotal LessonRow (fun a b => a.order_number ≤ b.order_number) :=
        ⟨fun a b => Nat.le_total _ _⟩
      haveI : IsTrans LessonRow (fun a b => a.order_number ≤ b.order_number) :=
        ⟨fun a b c => Nat.le_trans⟩
      exact List.sorted_insertionSort _ _
    exact hs.map toLesson (fun a b hab => hab)

/-- C10: for a non-empty `courseId`, `getModulesByCourseId` never throws; a
failing modules query yields `[]`; the result is sorted in non-decreasing
`order` with each module's lessons sorted in non-decreasing order number; and
when the modules query succeeds, a module whose lessons query fails is still
included, with an empty lessons list. -/
theorem get_modules_by_course_safe (courseId : String) (db : DB)
    (modulesFail : Bool) (lessonsFail : String → Bool) (hne : courseId ≠ "") :
    ∃ ms, getModulesByCourseId courseId db modulesFail lessonsFail = .ok ms ∧
      (modulesFail = true → ms = []) ∧
      List.Pairwise (fun a b : Module => a.order ≤ b.order) ms ∧
      (∀ mo ∈ ms, List.Pairwise (fun a b : Lesson => a.order ≤ b.order) mo.lessons) ∧
      (modulesFail = false → ∀ mr ∈ db.modules, mr.course_id = courseId →
        lessonsFail mr.id = true →
        ∃ mo ∈ ms, mo.id = mr.id ∧ mo.lessons = []) := by
  simp only [getModulesByCourseId]
  rw [if_neg hne]
  cases modulesFail with
  | true =>
    refine ⟨[], rfl, fun _ => rfl, List.Pairwise.nil, by simp, ?_⟩
    intro h
    exact absurd h (by simp)
  | false =>
    simp only [Bool.false_eq_true, if_false]
    by_cases hie : (List.insertionSort (fun a b : ModuleRow => a.order_number ≤ b.order_number)
        (db.modules.filter (fun m => m.course_id = courseId))).isEmpty = true
    · rw [if_pos hie]
      refine ⟨[], rfl, fun _ => rfl, List.Pairwise.nil, by simp, ?_⟩
      intro _ mr hmr hcrs hfail
      exfalso
      have hmem : mr ∈ db.modules.filter (fun m => m.course_id = courseId) :=
        List.mem_filter.2 ⟨hmr, decide_eq_true hcrs⟩
      have hmem2 : mr ∈ List.insertionSort
          (fun a b : ModuleRow => a.order_number ≤ b.order_number)
          (db.modules.filter (fun m => m.course_id = courseId)) :=
        (List.mem_insertionSort _).2 hmem
      exact List.ne_nil_of_mem hmem2 (List.isEmpty_iff.1 hie)
    · rw [if_neg hie]
      refine ⟨_, rfl, ?_, ?_, ?_, ?_⟩
      · intro h
        exact absurd h (by simp)
      · haveI : IsTotal Module (fun a b : Module => a.order ≤ b.order) :=
          ⟨fun a b => Nat.le_total _ _⟩
        haveI : IsTrans Module (fun a b : Module => a.order ≤ b.order) :=
          ⟨fun a b c => Nat.le_trans⟩
        exact List.sorted_insertionSort _ _
      · intro mo hmo
        have hmo2 := (List.mem_insertionSort _).1 hmo
        obtain ⟨mr, hmr, heq⟩ := List.mem_map.1 hmo2
        rw [← heq]
        exact moduleEntry_lessons_sorted db lessonsFail mr
      · intro _ mr hmr hcrs hfail
        refine ⟨moduleEntry db lessonsFail mr, ?_, moduleEntry_id db lessonsFail mr,
          moduleEntry_fail_lessons db lessonsFail mr hfail⟩
        refine (List.mem_insertionSort _).2 ?_
        refine List.mem_map_of_mem _ ?_
        refine (List.mem_insertionSort _).2 ?_
        exact List.mem_filter.2 ⟨hmr, decide_eq_true hcrs⟩

/-- Witness for C10 on `dbCourse`: the call returns the single module `m1`
with its two lessons in order. -/
theorem get_modules_by_course_safe_witness :
    ∃ ms, getModulesByCourseId "c1" dbCourse false (fun _ => false) = .ok ms ∧
      (False → ms = []) ∧
      List.Pairwise (fun a b : Module => a.order ≤ b.order) ms ∧
      (∀ mo ∈ ms, List.Pairwise (fun a b : Lesson => a.order ≤ b.order) mo.lessons) ∧
      (False → ∀ mr ∈ dbCourse.modules, mr.course_id = "c1" →
        (fun _ : String => false) mr.id = true →
        ∃ mo ∈ ms, mo.id = mr.id ∧ mo.lessons = []) := by
  obtain ⟨ms, h1, h2, h3, h4, h5⟩ :=
    get_modules_by_course_safe "c1" dbCourse false (fun _ => false) (by decide)
  exact ⟨ms, h1, fun hf => hf.elim, h3, h4, fun hf => hf.elim⟩

theorem fetchNetwork_usedNetwork (st : FetchState) (now : Nat) (req : Request)
    (net : NetOutcome) : (fetchNetwork st now req net).usedNetwork = true := by
  simp only [fetchNetwork, fetchOuterCatch]
  repeat' split
  all_goals rfl

theorem fetchModel_to_network (st : FetchState) (now : Nat) (req : Request)
    (net : NetOutcome) (hcool : inCooldown st (urlPath req.url) now = false)
    (hmiss : respLookup st.responseCache req = none) :
    fetchModel st now req net = fetchNetwork st now req net := by
  simp only [fetchModel, hcool, Bool.false_eq_true, if_false]
  by_cases hm : req.method = "GET"
  · rw [if_pos hm]
    simp only [hmiss]
  · rw [if_neg hm]

theorem fetchNetwork_rate429 (st : FetchState) (now : Nat) (req : Request)
    (ra : Option String) (msg : String)
    (hmiss : respLookup st.responseCache req = none) :
    fetchNetwork st now req (.rate429 ra msg) =
      { result := .thrown ("Rate limit excedido. Tente novamente em " ++
          ra.getD "10" ++ "s. " ++ msg),
        usedNetwork := true,
        state := addErrorPath (addErrorPath st (urlPath req.url) now)
          (urlPath req.url) now } := by
  simp only [fetchNetwork, fetchOuterCatch, addErrorPath]
  by_cases hm : req.method = "GET"
  · rw [if_pos hm]
    simp only [hmiss]
  · rw [if_neg hm]

theorem inCooldown_after_add2 (st : FetchState) (p : String) (now t : Nat)
    (hempty : st.errorPaths.filter (fun e => e.1 = p) = []) :
    inCooldown (addErrorPath (addErrorPath st p now) p now) p t =
      decide (t < now + ERROR_COOLDOWN) := by
  simp only [inCooldown, addErrorPath, List.filter_cons, hempty]
  simp [Bool.and_self]

theorem inCooldown_of_empty (st : FetchState) (p : String) (now : Nat)
    (hempty : st.errorPaths.filter (fun e => e.1 = p) = []) :
    inCooldown st p now = false := by
  simp [inCooldown, hempty]

theorem fetchModel_cooldown_get (st : FetchState) (now : Nat) (req : Request)
    (net : NetOutcome) (hcool : inCooldown st (urlPath req.url) now = true)
    (hget : req.method = "GET") :
    (fetchModel st now req net).usedNetwork = false ∧
    ((∃ e, respLookup st.responseCache req = some e ∧
        (fetchModel st now req net).result = .cached e.data) ∨
      (respLookup st.responseCache req = none ∧
        (fetchModel st now req net).result = .emptyData)) := by
  simp only [fetchModel, hcool, if_true]
  rcases hlook : respLookup st.responseCache req with _ | ⟨e⟩ <;> simp only [hlook]
  · rw [if_pos hget]
    exact ⟨rfl, .inr ⟨trivial, rfl⟩⟩
  · exact ⟨trivial, .inl ⟨e, rfl, rfl⟩⟩

theorem fetchModel_cooldown_cached (st : FetchState) (now : Nat) (req : Request)
    (net : NetOutcome) (e : CacheEntry)
    (hcool : inCooldown st (urlPath req.url) now = true)
    (hhit : respLookup st.responseCache req = some e) :
    fetchModel st now req net =
      { result := .cached e.data, usedNetwork := false, state := st } := by
  simp only [fetchModel, hcool, if_true, hhit]

theorem fetchModel_normal_ttl (st : FetchState) (now : Nat) (req : Request)
    (net : NetOutcome) (e : CacheEntry)
    (hcool : inCooldown st (urlPath req.url) now = false)
    (hget : req.method = "GET")
    (hhit : respLookup st.responseCache req = some e) :
    (now - e.timestamp < CACHE_TTL →
      fetchModel st now req net =
        { result := .cached e.data, usedNetwork := false, state := st }) ∧
    (CACHE_TTL ≤ now - e.timestamp →
      (fetchModel st now req net).usedNetwork = true) := by
  constructor
  · intro hfresh
    simp only [fetchModel, hcool, Bool.false_eq_true, if_false, if_pos hget, hhit]
    rw [if_pos hfresh]
  · intro hstale
    simp only [fetchModel, hcool, Bool.false_eq_true, if_false, if_pos hget, hhit]
    rw [if_neg (by omega)]
    exact fetchNetwork_usedNetwork st now req net

theorem respLookup_none_of_wf (st : FetchState) (req : Request)
    (hwf : ∀ ke ∈ st.responseCache, ke.1.method = "GET")
    (hng : req.method ≠ "GET") :
    respLookup st.responseCache req = none := by
  rcases hfind : st.responseCache.find? (fun x => x.1 = req) with _ | ⟨ke⟩
  · unfold respLookup
    rw [hfind]
    rfl
  · exfalso
    have hmem := List.mem_of_find?_eq_some hfind
    have hpred0 := List.find?_some hfind
    have hpred : ke.1 = req := of_decide_eq_true hpred0
    have hg := hwf ke hmem
    rw [hpred] at hg
    exact hng hg

theorem fetchNetwork_nonGET (st : FetchState) (now : Nat) (req : Request)
    (net : NetOutcome) (hng : req.method ≠ "GET")
    (hmiss : respLookup st.responseCache req = none) :
    (fetchNetwork st now req net).state.responseCache = st.responseCache ∧
    (∀ p, (fetchNetwork st now req net).result ≠ .cached p) ∧
    (fetchNetwork st now req net).usedNetwork = true := by
  cases net with
  | ok parsed =>
    simp only [fetchNetwork, fetchOuterCatch, addErrorPath]
    rw [if_neg hng]
    exact ⟨rfl, fun p h => FetchResult.noConfusion h, rfl⟩
  | rate429 ra msg =>
    simp only [fetchNetwork, fetchOuterCatch, addErrorPath]
    rw [if_neg hng]
    exact ⟨rfl, fun p h => FetchResult.noConfusion h, rfl⟩
  | httpErr status errorText =>
    simp only [fetchNetwork, fetchOuterCatch, addErrorPath]
    rw [if_neg hng]
    exact ⟨rfl, fun p h => FetchResult.noConfusion h, rfl⟩
  | timeout =>
    simp only [fetchNetwork, fetchOuterCatch, addErrorPath, hmiss]
    rw [if_neg hng]
    exact ⟨rfl, fun p h => FetchResult.noConfusion h, rfl⟩
  | netFail msg =>
    simp only [fetchNetwork, fetchOuterCatch, addErrorPath]
    rw [if_neg hng]
    exact ⟨rfl, fun p h => FetchResult.noConfusion h, rfl⟩

theorem fetchNetwork_cache_mem (st : FetchState) (now : Nat) (req : Request)
    (net : NetOutcome) :
    ∀ ke ∈ (fetchNetwork st now req net).state.responseCache,
      ke ∈ st.responseCache ∨ (ke.1 = req ∧ req.method = "GET" ∧
        ∃ p, net = .ok (some p) ∧ ke.2 = { data := p, timestamp := now }) := by
  cases net with
  | ok parsed =>
    simp only [fetchNetwork, fetchOuterCatch, addErrorPath, respInsert]
    by_cases hm : req.method = "GET"
    · rw [if_pos hm]
      cases parsed with
      | none => exact fun ke hke => .inl hke
      | some p =>
        intro ke hke
        rcases List.mem_cons.1 hke with h | h
        · exact .inr ⟨congrArg Prod.fst h, hm, p, rfl, congrArg Prod.snd h⟩
        · exact .inl (List.mem_of_mem_filter h)
    · rw [if_neg hm]
      exact fun ke hke => .inl hke
  | rate429 ra msg =>
    simp only [fetchNetwork, fetchOuterCatch, addErrorPath]
    by_cases hm : req.method = "GET"
    · rw [if_pos hm]
      rcases hlook : respLookup st.responseCache req with _ | ⟨e⟩ <;> simp only [hlook] <;>
        exact fun ke hke => .inl hke
    · rw [if_neg hm]
      exact fun ke hke => .inl hke
  | httpErr status errorText =>
    simp only [fetchNetwork, fetchOuterCatch, addErrorPath]
    by_cases hm : req.method = "GET"
    · rw [if_pos hm]
      rcases hlook : respLookup st.responseCache req with _ | ⟨e⟩ <;> simp only [hlook] <;>
        exact fun ke hke => .inl hke
    · rw [if_neg hm]
      exact fun ke hke => .inl hke
  | timeout =>
    simp only [fetchNetwork, fetchOuterCatch, addErrorPath]
    rcases hlook : respLookup st.responseCache req with _ | ⟨e⟩ <;> simp only [hlook]
    · by_cases hm : req.method = "GET"
      · rw [if_pos hm]
        simp only [hlook]
        exact fun ke hke => .inl hke
      · rw [if_neg hm]
        exact fun ke hke => .inl hke
    · exact fun ke hke => .inl hke
  | netFail msg =>
    simp only [fetchNetwork, fetchOuterCatch, addErrorPath]
    by_cases hm : req.method = "GET"
    · rw [if_pos hm]
      rcases hlook : respLookup st.responseCache req with _ | ⟨e⟩ <;> simp only [hlook] <;>
        exact fun ke hke => .inl hke
    · rw [if_neg hm]
      exact fun ke hke => .inl hke

theorem fetchModel_cache_mem (st : FetchState) (now : Nat) (req : Request)
    (net : NetOutcome) :
    ∀ ke ∈ (fetchModel st now req net).state.responseCache,
      ke ∈ st.responseCache ∨ (ke.1 = req ∧ req.method = "GET" ∧
        ∃ p, net = .ok (some p) ∧ ke.2 = { data := p, timestamp := now }) := by
  simp only [fetchModel]
  split
  · rcases hlook : respLookup st.responseCache req with _ | ⟨e⟩ <;> simp only [hlook]
    · split
      · exact fun ke hke => .inl hke
      · exact fetchNetwork_cache_mem st now req net
    · exact fun ke hke => .inl hke
  · split
    · rcases hlook : respLookup st.responseCache req with _ | ⟨e⟩ <;> simp only [hlook]
      · exact fetchNetwork_cache_mem st now req net
      · split
        · exact fun ke hke => .inl hke
        · exact fetchNetwork_cache_mem st now req net
    · exact fetchNetwork_cache_mem st now req net

theorem fetchModel_nonGET (st : FetchState) (now : Nat) (req : Request)
    (net : NetOutcome) (hwf : ∀ ke ∈ st.responseCache, ke.1.method = "GET")
    (hng : req.method ≠ "GET") :
    (fetchModel st now req net).state.responseCache = st.responseCache ∧
    (∀ p, (fetchModel st now req net).result ≠ .cached p) ∧
    (fetchModel st now req net).usedNetwork = true := by
  have hmiss := respLookup_none_of_wf st req hwf hng
  simp only [fetchModel, hmiss]
  split
  · exact fetchNetwork_nonGET st now req net hng hmiss
  · exact fetchNetwork_nonGET st now req net hng hmiss

theorem fetchNetwork_rate429_cached (st : FetchState) (now : Nat) (req : Request)
    (ra : Option String) (msg : String) (e : CacheEntry)
    (hget : req.method = "GET") (hhit : respLookup st.responseCache req = some e) :
    (fetchNetwork st now req (.rate429 ra msg)).result = .cached e.data := by
  simp only [fetchNetwork, fetchOuterCatch, addErrorPath]
  rw [if_pos hget]
  simp only [hhit]

/-- C5 counterexample: on the error-cooldown path a cache entry far older than
`CACHE_TTL` is served for a GET without consulting the network, so the claim
that a cached response is served only when younger than the TTL — including on
that path — is false. -/
theorem cache_ttl_claim_counterexample :
    CACHE_TTL ≤ 2000000 - entOld.timestamp ∧
    inCooldown stCoolStale (urlPath reqG.url) 2000000 = true ∧
    fetchModel stCoolStale 2000000 reqG (.ok (some (.raw "fresh"))) =
      { result := .cached entOld.data, usedNetwork := false, state := stCoolStale } :=
  ⟨by decide, by decide, by decide⟩

/-- C5 (amended): outside the fallback paths the TTL is respected — a GET not
in cooldown is answered from the cache only when the entry is younger than
`CACHE_TTL`, otherwise the network is consulted; on the error-cooldown path a
cached entry is served regardless of its age. -/
theorem cache_ttl_respected_outside_fallbacks :
    (∀ (st : FetchState) (now : Nat) (req : Request) (net : NetOutcome) (e : CacheEntry),
      inCooldown st (urlPath req.url) now = false → req.method = "GET" →
      respLookup st.responseCache req = some e →
      (now - e.timestamp < CACHE_TTL →
        fetchModel st now req net =
          { result := .cached e.data, usedNetwork := false, state := st }) ∧
      (CACHE_TTL ≤ now - e.timestamp →
        (fetchModel st now req net).usedNetwork = true)) ∧
    (∀ (st : FetchState) (now : Nat) (req : Request) (net : NetOutcome) (e : CacheEntry),
      inCooldown st (urlPath req.url) now = true →
      respLookup st.responseCache req = some e →
      fetchModel st now req net =
        { result := .cached e.data, usedNetwork := false, state := st }) :=
  ⟨fun st now req net e hcool hget hhit =>
      fetchModel_normal_ttl st now req net e hcool hget hhit,
    fun st now req net e hcool hhit =>
      fetchModel_cooldown_cached st now req net e hcool hhit⟩

/-- Witness for the amended C5: a fresh entry (age 10 < TTL) answers a GET
from the cache with no network use. -/
theorem cache_ttl_respected_outside_fallbacks_witness :
    fetchModel stFresh 100 reqG (.ok none) =
      { result := .cached (Payload.raw "d"), usedNetwork := false, state := stFresh } :=
  (cache_ttl_respected_outside_fallbacks.1 stFresh 100 reqG (.ok none)
    { data := .raw "d", timestamp := 90 } (by decide) (by decide) (by decide)).1 (by decide)

/-- C6 counterexample: a POST to a path in cooldown still reaches the network
(the claim says no network request is made to a cooling-down path), and a GET
receiving a 429 while holding a (stale) cache entry returns the cached
response instead of throwing the Retry-After error. -/
theorem rate_limit_claim_counterexample :
    inCooldown stCoolEmpty (urlPath reqPost.url) 100 = true ∧
    (fetchModel stCoolEmpty 100 reqPost (.ok none)).usedNetwork = true ∧
    (fetchModel stStale 2000000 reqG (.rate429 (some "7") "x")).result =
      .cached entOld.data :=
  ⟨by decide, by decide, by decide⟩

/-- C6 (amended): a 429 puts the path into the cooldown set for exactly
`ERROR_COOLDOWN` and throws an error carrying the Retry-After delay unless the
request is a GET with a cached response, which is then served; while a path is
in cooldown no GET request reaches the network — GETs are answered from the
cache when an entry exists and with an empty-data response otherwise (non-GET
requests still go to the network). -/
theorem rate_limit_backoff :
    (∀ (st : FetchState) (now : Nat) (req : Request) (ra : Option String)
        (msg : String) (t : Nat),
      st.errorPaths.filter (fun e => e.1 = urlPath req.url) = [] →
      respLookup st.responseCache req = none →
      inCooldown (fetchModel st now req (.rate429 ra msg)).state (urlPath req.url) t =
        decide (t < now + ERROR_COOLDOWN) ∧
      (fetchModel st now req (.rate429 ra msg)).result =
        .thrown ("Rate limit excedido. Tente novamente em " ++ ra.getD "10" ++ "s. " ++ msg)) ∧
    (∀ (st : FetchState) (now : Nat) (req : Request) (ra : Option String)
        (msg : String) (e : CacheEntry),
      inCooldown st (urlPath req.url) now = false → req.method = "GET" →
      respLookup st.responseCache req = some e → CACHE_TTL ≤ now - e.timestamp →
      (fetchModel st now req (.rate429 ra msg)).result = .cached e.data) ∧
    (∀ (st : FetchState) (now : Nat) (req : Request) (net : NetOutcome),
      inCooldown st (urlPath req.url) now = true → req.method = "GET" →
      (fetchModel st now req net).usedNetwork = false ∧
      ((∃ e, respLookup st.responseCache req = some e ∧
          (fetchModel st now req net).result = .cached e.data) ∨
        (respLookup st.responseCache req = none ∧
          (fetchModel st now req net).result = .emptyData))) := by
  refine ⟨?_, ?_, ?_⟩
  · intro st now req ra msg t hempty hmiss
    have hcool := inCooldown_of_empty st (urlPath req.url) now hempty
    rw [fetchModel_to_network st now req (.rate429 ra msg) hcool hmiss]
    rw [fetchNetwork_rate429 st now req ra msg hmiss]
    exact ⟨inCooldown_after_add2 st (urlPath req.url) now t hempty, rfl⟩
  · intro st now req ra msg e hcool hget hhit hstale
    have hstale2 : ¬(now - e.timestamp < CACHE_TTL) := by omega
    simp only [fetchModel, hcool, Bool.false_eq_true, if_false, if_pos hget, hhit,
      if_neg hstale2]
    exact fetchNetwork_rate429_cached st now req ra msg e hget hhit
  · intro st now req net hcool hget
    exact fetchModel_cooldown_get st now req net hcool hget

/-- Witness for the amended C6: a 429 on an empty state puts the path in
cooldown until `now + ERROR_COOLDOWN` and throws the Retry-After message. -/
theorem rate_limit_backoff_witness :
    inCooldown (fetchModel stEmpty 100 reqPost (.rate429 (some "7") "m")).state
      (urlPath reqPost.url) 5000 = decide (5000 < 100 + ERROR_COOLDOWN) ∧
    (fetchModel stEmpty 100 reqPost (.rate429 (some "7") "m")).result =
      .thrown ("Rate limit excedido. Tente novamente em " ++
        (some "7").getD "10" ++ "s. " ++ "m") :=
  rate_limit_backoff.1 stEmpty 100 reqPost (some "7") "m" 5000 (by decide) (by decide)

/-- C7: the response cache stores only successful GET responses — every cache
entry of the post-state is an old entry or the freshly parsed body of a
successful GET —, and a non-GET request is never answered from the cache
(under the invariant that all cache keys are GETs, which the first conjunct
preserves): it always reaches the throttled network call, leaving the
response cache unchanged. -/
theorem response_cache_get_only :
    (∀ (st : FetchState) (now : Nat) (req : Request) (net : NetOutcome),
      ∀ ke ∈ (fetchModel st now req net).state.responseCache,
        ke ∈ st.responseCache ∨ (ke.1 = req ∧ req.method = "GET" ∧
          ∃ p, net = .ok (some p) ∧ ke.2 = { data := p, timestamp := now })) ∧
    (∀ (st : FetchState) (now : Nat) (req : Request) (net : NetOutcome),
      (∀ ke ∈ st.responseCache, ke.1.method = "GET") → req.method ≠ "GET" →
      (fetchModel st now req net).state.responseCache = st.responseCache ∧
      (∀ p, (fetchModel st now req net).result ≠ .cached p) ∧
      (fetchModel st now req net).usedNetwork = true) :=
  ⟨fetchModel_cache_mem, fetchModel_nonGET⟩

/-- Witness for C7: a POST to a cooling-down path with an all-GET cache goes
to the network, is not served from the cache, and writes nothing. -/
theorem response_cache_get_only_witness :
    (fetchModel stCoolEmpty 100 reqPost (.ok none)).state.responseCache =
      stCoolEmpty.responseCache ∧
    (∀ p, (fetchModel stCoolEmpty 100 reqPost (.ok none)).result ≠ .cached p) ∧
    (fetchModel stCoolEmpty 100 reqPost (.ok none)).usedNetwork = true :=
  response_cache_get_only.2 stCoolEmpty 100 reqPost (.ok none)
    (by intro ke hke; simp only [stCoolEmpty] at hke; exact absurd hke (List.not_mem_nil ke))
    (by decide)

end LMS
